import Mathlib

/-!
Verification of the output-persistence pipeline of
`duthinker/linkedin_content_generator` (`src/output_manager.py`).

The embedding models Python values reaching the pipeline as JSON-like
values (`PyVal`): records produced by the content generator are
string-keyed dictionaries whose values are strings, integers, booleans,
`None`, lists, or further dictionaries.  Python dictionaries are modelled
as association lists in insertion order with distinct keys.  Machine-level
integers of the SHA-256 digest are `Nat` with explicit `% 2^32`.
-/

set_option maxHeartbeats 1000000
set_option maxRecDepth 4096

namespace OutputManager

/-- A Python value as it occurs in content records: the JSON-like fragment
produced by the upstream generator (string-keyed dictionaries). -/
inductive PyVal where
  | none
  | bool (b : Bool)
  | int (n : Int)
  | str (s : String)
  | list (xs : List PyVal)
  | dict (kvs : List (String × PyVal))

mutual

/-- Decidable equality for `PyVal` (the `deriving` handler does not support
this nested inductive). -/
def PyVal.decEq : (a b : PyVal) → Decidable (a = b)
  | .none, .none => isTrue rfl
  | .none, .bool _ => isFalse (fun h => PyVal.noConfusion h)
  | .none, .int _ => isFalse (fun h => PyVal.noConfusion h)
  | .none, .str _ => isFalse (fun h => PyVal.noConfusion h)
  | .none, .list _ => isFalse (fun h => PyVal.noConfusion h)
  | .none, .dict _ => isFalse (fun h => PyVal.noConfusion h)
  | .bool _, .none => isFalse (fun h => PyVal.noConfusion h)
  | .bool a, .bool b =>
    match Bool.decEq a b with
    | isTrue h => isTrue (h ▸ rfl)
    | isFalse h => isFalse (fun hh => PyVal.noConfusion hh (fun he => h he))
  | .bool _, .int _ => isFalse (fun h => PyVal.noConfusion h)
  | .bool _, .str _ => isFalse (fun h => PyVal.noConfusion h)
  | .bool _, .list _ => isFalse (fun h => PyVal.noConfusion h)
  | .bool _, .dict _ => isFalse (fun h => PyVal.noConfusion h)
  | .int _, .none => isFalse (fun h => PyVal.noConfusion h)
  | .int _, .bool _ => isFalse (fun h => PyVal.noConfusion h)
  | .int a, .int b =>
    match Int.decEq a b with
    | isTrue h => isTrue (h ▸ rfl)
    | isFalse h => isFalse (fun hh => PyVal.noConfusion hh (fun he => h he))
  | .int _, .str _ => isFalse (fun h => PyVal.noConfusion h)
  | .int _, .list _ => isFalse (fun h => PyVal.noConfusion h)
  | .int _, .dict _ => isFalse (fun h => PyVal.noConfusion h)
  | .str _, .none => isFalse (fun h => PyVal.noConfusion h)
  | .str _, .bool _ => isFalse (fun h => PyVal.noConfusion h)
  | .str _, .int _ => isFalse (fun h => PyVal.noConfusion h)
  | .str a, .str b =>
    match String.decEq a b with
    | isTrue h => isTrue (h ▸ rfl)
    | isFalse h => isFalse (fun hh => PyVal.noConfusion hh (fun he => h he))
  | .str _, .list _ => isFalse (fun h => PyVal.noConfusion h)
  | .str _, .dict _ => isFalse (fun h => PyVal.noConfusion h)
  | .list _, .none => isFalse (fun h => PyVal.noConfusion h)
  | .list _, .bool _ => isFalse (fun h => PyVal.noConfusion h)
  | .list _, .int _ => isFalse (fun h => PyVal.noConfusion h)
  | .list _, .str _ => isFalse (fun h => PyVal.noConfusion h)
  | .list xs, .list ys =>
    match PyVal.decEqList xs ys with
    | isTrue h => isTrue (h ▸ rfl)
    | isFalse h => isFalse (fun hh => PyVal.noConfusion hh (fun he => h he))
  | .list _, .dict _ => isFalse (fun h => PyVal.noConfusion h)
  | .dict _, .none => isFalse (fun h => PyVal.noConfusion h)
  | .dict _, .bool _ => isFalse (fun h => PyVal.noConfusion h)
  | .dict _, .int _ => isFalse (fun h => PyVal.noConfusion h)
  | .dict _, .str _ => isFalse (fun h => PyVal.noConfusion h)
  | .dict _, .list _ => isFalse (fun h => PyVal.noConfusion h)
  | .dict xs, .dict ys =>
    match PyVal.decEqKVs xs ys with
    | isTrue h => isTrue (h ▸ rfl)
    | isFalse h => isFalse (fun hh => PyVal.noConfusion hh (fun he => h he))

/-- Decidable equality for lists of `PyVal`. -/
def PyVal.decEqList : (xs ys : List PyVal) → Decidable (xs = ys)
  | [], [] => isTrue rfl
  | [], _ :: _ => isFalse (fun h => List.noConfusion h)
  | _ :: _, [] => isFalse (fun h => List.noConfusion h)
  | x :: xs, y :: ys =>
    match PyVal.decEq x y, PyVal.decEqList xs ys with
    | isTrue h1, isTrue h2 => isTrue (h1 ▸ h2 ▸ rfl)
    | isFalse h1, _ =>
      isFalse (fun hh => List.noConfusion hh (fun he _ => h1 he))
    | _, isFalse h2 =>
      isFalse (fun hh => List.noConfusion hh (fun _ ht => h2 ht))

/-- Decidable equality for key-value lists of `PyVal`. -/
def PyVal.decEqKVs : (xs ys : List (String × PyVal)) → Decidable (xs = ys)
  | [], [] => isTrue rfl
  | [], _ :: _ => isFalse (fun h => List.noConfusion h)
  | _ :: _, [] => isFalse (fun h => List.noConfusion h)
  | (k1, v1) :: xs, (k2, v2) :: ys =>
    match String.decEq k1 k2, PyVal.decEq v1 v2, PyVal.decEqKVs xs ys with
    | isTrue h1, isTrue h2, isTrue h3 => isTrue (h1 ▸ h2 ▸ h3 ▸ rfl)
    | isFalse h1, _, _ =>
      isFalse (fun hh =>
        List.noConfusion hh (fun he _ => h1 (congrArg Prod.fst he)))
    | _, isFalse h2, _ =>
      isFalse (fun hh =>
        List.noConfusion hh (fun he _ => h2 (congrArg Prod.snd he)))
    | _, _, isFalse h3 =>
      isFalse (fun hh => List.noConfusion hh (fun _ ht => h3 ht))

end

instance : DecidableEq PyVal := PyVal.decEq

/-- First-match association-list lookup: Python `d[k]` / `k in d` on a
dictionary with distinct keys. -/
def lookupAssoc (kvs : List (String × PyVal)) (k : String) : Option PyVal :=
  match kvs with
  | [] => Option.none
  | (k0, v0) :: rest => if k0 = k then some v0 else lookupAssoc rest k

/-- Python `k in d`. -/
def hasKey (kvs : List (String × PyVal)) (k : String) : Bool :=
  (lookupAssoc kvs k).isSome

/-- Python truthiness (`bool(x)`) on the modelled values. -/
def truthy : PyVal → Bool
  | .none => false
  | .bool b => b
  | .int n => n != 0
  | .str s => !s.isEmpty
  | .list xs => !xs.isEmpty
  | .dict kvs => !kvs.isEmpty

/-- Python `isinstance(x, dict)`. -/
def isDict : PyVal → Bool
  | .dict _ => true
  | _ => false

/-- Python `isinstance(x, list)`. -/
def isList : PyVal → Bool
  | .list _ => true
  | _ => false

/-- Python `d.get(k, default)` on a dictionary value. -/
def dictGetD (kvs : List (String × PyVal)) (k : String) (dflt : PyVal) : PyVal :=
  (lookupAssoc kvs k).getD dflt

/-- The error taxonomy of `output_manager.py`: `ValidationError`,
`FileError`, `SerializationError` and the wrapping `OutputError`, plus the
raw Python exceptions (`AttributeError`, `TypeError`, `ValueError`) that
can escape helper calls before being wrapped. -/
inductive PyErr where
  | validation (msg : String)
  | file (msg : String)
  | serialization (msg : String)
  | output (msg : String)
  | attrError (msg : String)
  | typeError (msg : String)
  | valueError (msg : String)
deriving DecidableEq

/-- `ContentValidator._validate_text`: requires a `content` key with a
truthy value. -/
def validateText (kvs : List (String × PyVal)) : Except PyErr Unit :=
  match lookupAssoc kvs "content" with
  | Option.none => .error (.validation "Text content missing 'content' field")
  | some v => if truthy v then .ok () else .error (.validation "Text content is empty")

/-- `ContentValidator._validate_carousel`: requires `slides` to be a list. -/
def validateCarousel (kvs : List (String × PyVal)) : Except PyErr Unit :=
  match lookupAssoc kvs "slides" with
  | Option.none => .error (.validation "Carousel content missing 'slides' field")
  | some v => if isList v then .ok () else .error (.validation "Carousel 'slides' must be a list")

/-- `ContentValidator._validate_poll`: requires `options` to be a list. -/
def validatePoll (kvs : List (String × PyVal)) : Except PyErr Unit :=
  match lookupAssoc kvs "options" with
  | Option.none => .error (.validation "Poll content missing 'options' field")
  | some v => if isList v then .ok () else .error (.validation "Poll 'options' must be a list")

/-- `ContentValidator._validate_newsletter`: requires `sections` to be a
dictionary. -/
def validateNewsletter (kvs : List (String × PyVal)) : Except PyErr Unit :=
  match lookupAssoc kvs "sections" with
  | Option.none => .error (.validation "Newsletter content missing 'sections' field")
  | some v => if isDict v then .ok () else .error (.validation "Newsletter 'sections' must be a dictionary")

/-- `ContentValidator._validate_video_script`: requires a `script` key with
a truthy value. -/
def validateVideoScript (kvs : List (String × PyVal)) : Except PyErr Unit :=
  match lookupAssoc kvs "script" with
  | Option.none => .error (.validation "Video script content missing 'script' field")
  | some v => if truthy v then .ok () else .error (.validation "Video script content is empty")

/-- `ContentValidator._validate_document`: requires `sections` to be a
dictionary. -/
def validateDocument (kvs : List (String × PyVal)) : Except PyErr Unit :=
  match lookupAssoc kvs "sections" with
  | Option.none => .error (.validation "Document content missing 'sections' field")
  | some v => if isDict v then .ok () else .error (.validation "Document 'sections' must be a dictionary")

/-- The `validators` dispatch table of `ContentValidator.validate_content`. -/
def validatorFor (contentType : String) :
    Option (List (String × PyVal) → Except PyErr Unit) :=
  if contentType = "text" then some validateText
  else if contentType = "carousel" then some validateCarousel
  else if contentType = "poll" then some validatePoll
  else if contentType = "newsletter" then some validateNewsletter
  else if contentType = "video_script" then some validateVideoScript
  else if contentType = "document" then some validateDocument
  else Option.none

/-- `ContentValidator.validate_content`: dictionary check, emptiness
check, `metadata`-presence check, then the kind-specific validator; an
unregistered kind is a `ValidationError`. -/
def validateContent (content : PyVal) (contentType : String) : Except PyErr Unit :=
  match content with
  | .dict kvs =>
    if kvs.isEmpty then .error (.validation "Content is empty")
    else if !(hasKey kvs "metadata") then
      .error (.validation "Content missing 'metadata' field")
    else
      match validatorFor contentType with
      | some v => v kvs
      | Option.none =>
        .error (.validation ("No validator found for content type: " ++ contentType))
  | _ => .error (.validation "Content must be a dictionary")

/-- `OutputManager._sanitize_filename`, acting on an arbitrary Python
value as the source does: falsy input returns `"untitled"`; otherwise each
character of `str(text).lower()` that is not alphanumeric, a space, a
hyphen or an underscore is replaced by `_`; the result is stripped of
leading/trailing whitespace, with `"untitled"` as the fallback when the
stripped string is empty.  (Defined below after `pyStr`; this is the
character-mapping core on a string.) -/
def sanitizeCore (s : String) : String :=
  String.mk ((s.toList.map Char.toLower).map
    (fun x => if x.isAlphanum || x = ' ' || x = '-' || x = '_' then x else '_'))

/-- Python `str.strip()`: drop leading and trailing whitespace. -/
def pyStrip (s : String) : String :=
  String.mk (((s.toList.dropWhile Char.isWhitespace).reverse.dropWhile
    Char.isWhitespace).reverse)

/-- `OutputManager._normalize_content`: non-dictionary input is returned
unchanged; a dictionary is shallow-copied with the volatile top-level keys
`generation_time` and `metadata` popped. -/
def normalizeContent : PyVal → PyVal
  | .dict kvs =>
    .dict (kvs.filter (fun kv => kv.1 ≠ "generation_time" ∧ kv.1 ≠ "metadata"))
  | v => v


/-- Truncation to a 32-bit word (`% 2^32`). -/
def w32 (x : Nat) : Nat := x % 4294967296

/-- 32-bit right rotation. -/
def rotr32 (x n : Nat) : Nat := w32 ((x >>> n) ||| (x <<< (32 - n)))

/-- SHA-256 `Σ0`. -/
def bSig0 (x : Nat) : Nat := (rotr32 x 2) ^^^ (rotr32 x 13) ^^^ (rotr32 x 22)

/-- SHA-256 `Σ1`. -/
def bSig1 (x : Nat) : Nat := (rotr32 x 6) ^^^ (rotr32 x 11) ^^^ (rotr32 x 25)

/-- SHA-256 `σ0`. -/
def sSig0 (x : Nat) : Nat := (rotr32 x 7) ^^^ (rotr32 x 18) ^^^ (x >>> 3)

/-- SHA-256 `σ1`. -/
def sSig1 (x : Nat) : Nat := (rotr32 x 17) ^^^ (rotr32 x 19) ^^^ (x >>> 10)

/-- SHA-256 `Ch`. -/
def chF (e f g : Nat) : Nat := (e &&& f) ^^^ ((e ^^^ 4294967295) &&& g)

/-- SHA-256 `Maj`. -/
def majF (a b c : Nat) : Nat := (a &&& b) ^^^ (a &&& c) ^^^ (b &&& c)

/-- SHA-256 round constants. -/
def sha256K : List Nat :=
  [1116352408, 1899447441, 3049323471, 3921009573, 961987163, 1508970993,
   2453635748, 2870763221, 3624381080, 310598401, 607225278, 1426881987,
   1925078388, 2162078206, 2614888103, 3248222580, 3835390401, 4022224774,
   264347078, 604807628, 770255983, 1249150122, 1555081692, 1996064986,
   2554220882, 2821834349, 2952996808, 3210313671, 3336571891, 3584528711,
   113926993, 338241895, 666307205, 773529912, 1294757372, 1396182291,
   1695183700, 1986661051, 2177026350, 2456956037, 2730485921, 2820302411,
   3259730800, 3345764771, 3516065817, 3600352804, 4094571909, 275423344,
   430227734, 506948616, 659060556, 883997877, 958139571, 1322822218,
   1537002063, 1747873779, 1955562222, 2024104815, 2227730452, 2361852424,
   2428436474, 2756734187, 3204031479, 3329325298]

/-- SHA-256 initial hash state. -/
def sha256H0 : List Nat :=
  [1779033703, 3144134277, 1013904242, 2773480762,
   1359893119, 2600822924, 528734635, 1541459225]

/-- Message-schedule extension: the head of `r` is the newest word; extend
`n` more words. -/
def schedRev (r : List Nat) : Nat → List Nat
  | 0 => r
  | n+1 =>
    let w := w32 (sSig1 (r.getD 1 0) + r.getD 6 0 + sSig0 (r.getD 14 0) + r.getD 15 0)
    schedRev (w :: r) n

/-- The 64-word message schedule of one 64-byte block. -/
def sha256Schedule (block : List Nat) : List Nat :=
  let w16 := (List.range 16).map (fun i =>
    block.getD (4*i) 0 * 16777216 + block.getD (4*i+1) 0 * 65536 +
    block.getD (4*i+2) 0 * 256 + block.getD (4*i+3) 0)
  (schedRev w16.reverse 48).reverse

/-- The eight working registers of the SHA-256 compression loop. -/
structure Regs where
  a : Nat
  b : Nat
  c : Nat
  d : Nat
  e : Nat
  f : Nat
  g : Nat
  h : Nat

/-- One round of the SHA-256 compression loop. -/
def sha256Round (s : Regs) (wk : Nat × Nat) : Regs :=
  let t1 := w32 (s.h + bSig1 s.e + chF s.e s.f s.g + wk.2 + wk.1)
  let t2 := w32 (bSig0 s.a + majF s.a s.b s.c)
  ⟨w32 (t1 + t2), s.a, s.b, s.c, w32 (s.d + t1), s.e, s.f, s.g⟩

/-- SHA-256 compression of one 64-byte block into the running hash. -/
def sha256Compress (hs : List Nat) (block : List Nat) : List Nat :=
  let ws := sha256Schedule block
  let r0 : Regs := ⟨hs.getD 0 0, hs.getD 1 0, hs.getD 2 0, hs.getD 3 0,
                    hs.getD 4 0, hs.getD 5 0, hs.getD 6 0, hs.getD 7 0⟩
  let r := (ws.zip sha256K).foldl sha256Round r0
  [w32 (hs.getD 0 0 + r.a), w32 (hs.getD 1 0 + r.b), w32 (hs.getD 2 0 + r.c),
   w32 (hs.getD 3 0 + r.d), w32 (hs.getD 4 0 + r.e), w32 (hs.getD 5 0 + r.f),
   w32 (hs.getD 6 0 + r.g), w32 (hs.getD 7 0 + r.h)]

/-- Fold the compression function over the 64-byte blocks of the message,
with an explicit fuel bound on the number of iterations (structural, so
that digests evaluate by kernel reduction). -/
def sha256BlocksGo (fuel : Nat) (hs bytes : List Nat) : List Nat :=
  match fuel with
  | 0 => hs
  | f + 1 =>
    if bytes.isEmpty then hs
    else sha256BlocksGo f (sha256Compress hs (bytes.take 64)) (bytes.drop 64)

/-- Fold the compression function over all 64-byte blocks (the fuel
`bytes.length + 1` always suffices: every iteration drops 64 bytes). -/
def sha256Blocks (hs bytes : List Nat) : List Nat :=
  sha256BlocksGo (bytes.length + 1) hs bytes

/-- SHA-256 message padding: `0x80`, zeros to 56 mod 64, then the bit
length as 8 big-endian bytes. -/
def sha256Pad (ms : List Nat) : List Nat :=
  let L := ms.length
  let k := (119 - L % 64) % 64
  ms ++ [128] ++ List.replicate k 0 ++
    (List.range 8).map (fun i => ((8 * L) >>> (56 - 8 * i)) % 256)

/-- UTF-8 encoding of one character, as byte values. -/
def utf8Char (c : Char) : List Nat :=
  let n := c.toNat
  if n < 128 then [n]
  else if n < 2048 then [192 + n / 64, 128 + n % 64]
  else if n < 65536 then [224 + n / 4096, 128 + (n / 64) % 64, 128 + n % 64]
  else [240 + n / 262144, 128 + (n / 4096) % 64, 128 + (n / 64) % 64, 128 + n % 64]

/-- UTF-8 encoding of a string (Python `str.encode()`). -/
def utf8Bytes (s : String) : List Nat := (s.toList.map utf8Char).flatten

/-- A lowercase hexadecimal digit. -/
def hexDigit (n : Nat) : Char := Char.ofNat (if n < 10 then 48 + n else 87 + n)

/-- The eight hex characters of one 32-bit word, most significant first. -/
def hexChars8 (w : Nat) : List Char :=
  (List.range 8).map (fun i => hexDigit ((w >>> (28 - 4 * i)) % 16))

/-- `hashlib.sha256(s.encode()).hexdigest()`. -/
def sha256hex (s : String) : String :=
  let words := sha256Blocks sha256H0 (sha256Pad (utf8Bytes s))
  String.mk ((words.map hexChars8).flatten)

/-- Four lowercase hex characters of a 16-bit value (the `XXXX` of a JSON
`\uXXXX` escape). -/
def hexChars4 (n : Nat) : List Char :=
  (List.range 4).map (fun i => hexDigit ((n >>> (12 - 4 * i)) % 16))

/-- `json.dumps` escaping of one character with the default
`ensure_ascii=True`: printable ASCII other than quote and backslash is
kept; the short escapes are used for the classic control characters; every
other character becomes `\uXXXX` (a surrogate pair beyond the BMP). -/
def jsonEscChar (c : Char) : List Char :=
  let n := c.toNat
  if c = '"' then ['\\', '"']
  else if c = '\\' then ['\\', '\\']
  else if c = '\n' then ['\\', 'n']
  else if c = '\r' then ['\\', 'r']
  else if c = '\t' then ['\\', 't']
  else if n = 8 then ['\\', 'b']
  else if n = 12 then ['\\', 'f']
  else if 32 ≤ n && n ≤ 126 then [c]
  else if n < 65536 then '\\' :: 'u' :: hexChars4 n
  else
    let m := n - 65536
    ('\\' :: 'u' :: hexChars4 (55296 + m / 1024)) ++
    ('\\' :: 'u' :: hexChars4 (56320 + m % 1024))

/-- A JSON string literal: quoted, escaped. -/
def jsonQuote (s : String) : String :=
  String.mk ('"' :: (s.toList.map jsonEscChar).flatten ++ ['"'])

mutual

/-- `json.dumps` with the default separators `", "` and `": "`,
`ensure_ascii=True`, and dictionary entries in insertion order.  Used
verbatim for the `len(json.dumps(content))` size check of `save_content`;
composed with `sortDicts` it is `json.dumps(..., sort_keys=True)` as used
by `_compute_checksum`. -/
def dumpsVal : PyVal → String
  | .none => "null"
  | .bool b => if b then "true" else "false"
  | .int n => toString n
  | .str s => jsonQuote s
  | .list xs => "[" ++ dumpsElems xs ++ "]"
  | .dict kvs => "\x7b" ++ dumpsEntries kvs ++ "\x7d"

/-- Comma-joined serializations of array elements. -/
def dumpsElems : List PyVal → String
  | [] => ""
  | [x] => dumpsVal x
  | x :: y :: rest => dumpsVal x ++ ", " ++ dumpsElems (y :: rest)

/-- Comma-joined serializations of object entries. -/
def dumpsEntries : List (String × PyVal) → String
  | [] => ""
  | [(k, v)] => jsonQuote k ++ ": " ++ dumpsVal v
  | (k, v) :: e :: rest =>
    jsonQuote k ++ ": " ++ dumpsVal v ++ ", " ++ dumpsEntries (e :: rest)

end

/-- The key order used by `json.dumps(..., sort_keys=True)`
(`sorted(dct.items())`; keys are distinct in a Python dictionary, so the
order is by key). -/
def keyOrder (p q : String × PyVal) : Prop := p.1 ≤ q.1

instance : DecidableRel keyOrder := fun p q => inferInstanceAs (Decidable (p.1 ≤ q.1))

mutual

/-- Recursively put every dictionary of a value into sorted key order, so
that plain serialization of the result is `json.dumps(..., sort_keys=True)`
of the original. -/
def sortDicts : PyVal → PyVal
  | .none => .none
  | .bool b => .bool b
  | .int n => .int n
  | .str s => .str s
  | .list xs => .list (sortDictsList xs)
  | .dict kvs => .dict (List.insertionSort keyOrder (sortDictsKVs kvs))

/-- `sortDicts` on each element of a list. -/
def sortDictsList : List PyVal → List PyVal
  | [] => []
  | x :: xs => sortDicts x :: sortDictsList xs

/-- `sortDicts` on each value of a key-value list. -/
def sortDictsKVs : List (String × PyVal) → List (String × PyVal)
  | [] => []
  | (k, v) :: rest => (k, sortDicts v) :: sortDictsKVs rest

end

/-- `json.dumps(content, sort_keys=True)` — the canonical serialization
used for checksums. -/
def jsonDumpsSorted (v : PyVal) : String := dumpsVal (sortDicts v)

/-- `OutputManager._compute_checksum`: SHA-256 hex digest of the canonical
serialization of the normalized content. -/
def computeChecksum (content : PyVal) : String :=
  sha256hex (jsonDumpsSorted (normalizeContent content))

/-- The apostrophe character, used by Python `repr` of strings. -/
def squoteChar : Char := Char.ofNat 39

/-- Python `repr` escaping of one character inside a single-quoted string
literal. -/
def reprEscChar (c : Char) : List Char :=
  let n := c.toNat
  if c = squoteChar then ['\\', squoteChar]
  else if c = '\\' then ['\\', '\\']
  else if c = '\n' then ['\\', 'n']
  else if c = '\r' then ['\\', 'r']
  else if c = '\t' then ['\\', 't']
  else if n < 32 || n = 127 then
    '\\' :: 'x' :: [hexDigit ((n >>> 4) % 16), hexDigit (n % 16)]
  else [c]

/-- Python `repr` of a string: single-quoted with escapes. -/
def reprQuote (s : String) : String :=
  String.mk (squoteChar :: (s.toList.map reprEscChar).flatten ++ [squoteChar])

mutual

/-- Python `repr` of a modelled value (as used by `str()` on containers). -/
def pyRepr : PyVal → String
  | .none => "None"
  | .bool b => if b then "True" else "False"
  | .int n => toString n
  | .str s => reprQuote s
  | .list xs => "[" ++ reprElems xs ++ "]"
  | .dict kvs => "\x7b" ++ reprEntries kvs ++ "\x7d"

/-- Comma-joined `repr`s of list elements. -/
def reprElems : List PyVal → String
  | [] => ""
  | [x] => pyRepr x
  | x :: y :: rest => pyRepr x ++ ", " ++ reprElems (y :: rest)

/-- Comma-joined `repr`s of dictionary entries. -/
def reprEntries : List (String × PyVal) → String
  | [] => ""
  | [(k, v)] => reprQuote k ++ ": " ++ pyRepr v
  | (k, v) :: e :: rest =>
    reprQuote k ++ ": " ++ pyRepr v ++ ", " ++ reprEntries (e :: rest)

end

/-- Python `str()` of a modelled value. -/
def pyStr : PyVal → String
  | .str s => s
  | v => pyRepr v

/-- `OutputManager._sanitize_filename` on the Python value it receives:
falsy input gives `"untitled"`, otherwise the character-mapped form of
`str(text).lower()` is stripped, with `"untitled"` when the stripped
result is empty (`... .strip() or "untitled"`). -/
def sanitizeFilename (text : PyVal) : String :=
  if !truthy text then "untitled"
  else
    let safe := sanitizeCore (pyStr text)
    if (pyStrip safe).isEmpty then "untitled" else pyStrip safe

/-- Python `for`-loop iteration over a value: lists yield their elements,
strings their characters, dictionaries their keys; other values raise
`TypeError`. -/
def pyIter : PyVal → Except PyErr (List PyVal)
  | .list xs => .ok xs
  | .str s => .ok (s.toList.map (fun c => .str (String.mk [c])))
  | .dict kvs => .ok (kvs.map (fun kv => .str kv.1))
  | _ => .error (.typeError "object is not iterable")

/-- Python `.items()` on a value: only dictionaries have it. -/
def pyItems : PyVal → Except PyErr (List (String × PyVal))
  | .dict kvs => .ok kvs
  | _ => .error (.attrError "object has no attribute items")

/-- The string check of `str.join`: every joined part must be a `str`. -/
def strParts : List PyVal → Except PyErr (List String)
  | [] => .ok []
  | .str s :: rest => (strParts rest).map (fun tl => s :: tl)
  | _ :: _ => .error (.typeError "sequence item: expected str instance")

/-- Python `sep.join(parts)` over a list of values. -/
def pyJoin (sep : String) (parts : List PyVal) : Except PyErr String :=
  (strParts parts).map (String.intercalate sep)

/-- The `cta` tail of the carousel/newsletter formatters:
`if cta := c.get('cta'): parts.extend(["\n## Call to Action", cta])`. -/
def ctaExtend (kvs : List (String × PyVal)) (parts : List PyVal) : List PyVal :=
  let cta := dictGetD kvs "cta" .none
  if truthy cta then parts ++ [.str "\n## Call to Action", cta] else parts

/-- The inner `format_method` of `ContentFormatter.text`:
`str(c.get('content', ''))`. -/
def fmtText (c : PyVal) : Except PyErr String :=
  match c with
  | .dict kvs => .ok (pyStr (dictGetD kvs "content" (.str "")))
  | _ => .error (.attrError "object has no attribute get")

/-- The inner `format_method` of `ContentFormatter.poll`. -/
def fmtPoll (c : PyVal) : Except PyErr String :=
  match c with
  | .dict kvs => do
    let opts ← pyIter (dictGetD kvs "options" (.list []))
    let optLines := String.intercalate "\n" (opts.map (fun o => "- " ++ pyStr o))
    pyJoin "\n\n"
      [.str ("# " ++ pyStr (dictGetD kvs "hook" (.str "Poll"))),
       .str "## Context",
       dictGetD kvs "context" (.str ""),
       .str "## Options",
       .str optLines]
  | _ => .error (.attrError "object has no attribute get")

/-- The slide expansion of `ContentFormatter.carousel`
(`enumerate(c.get('slides', []), 1)`). -/
def carouselSlides : List PyVal → Nat → Except PyErr (List PyVal)
  | [], _ => .ok []
  | slide :: rest, i =>
    match slide with
    | .dict skvs => do
      let title := dictGetD skvs "title" (.str ("Slide " ++ toString i))
      let ctext := dictGetD skvs "content" (.str "")
      let tail ← carouselSlides rest (i + 1)
      .ok (.str ("\n## Slide " ++ toString i ++ ": " ++ pyStr title) :: ctext :: tail)
    | _ => .error (.attrError "object has no attribute get")

/-- The inner `format_method` of `ContentFormatter.carousel`. -/
def fmtCarousel (c : PyVal) : Except PyErr String :=
  match c with
  | .dict kvs => do
    let slides ← pyIter (dictGetD kvs "slides" (.list []))
    let slideParts ← carouselSlides slides 1
    let parts := PyVal.str ("# " ++ pyStr (dictGetD kvs "hook" (.str "Carousel")) ++ "\n")
      :: slideParts
    pyJoin "\n\n" (ctaExtend kvs parts)
  | _ => .error (.attrError "object has no attribute get")

/-- The section expansion shared by the newsletter, video-script and
document formatters: `parts.extend([f"\n## {section}", str(text)])`. -/
def sectionParts (secs : List (String × PyVal)) : List PyVal :=
  (secs.map (fun kv => [PyVal.str ("\n## " ++ kv.1), PyVal.str (pyStr kv.2)])).flatten

/-- The inner `format_method` of `ContentFormatter.newsletter`. -/
def fmtNewsletter (c : PyVal) : Except PyErr String :=
  match c with
  | .dict kvs => do
    let secs ← pyItems (dictGetD kvs "sections" (.dict []))
    let parts := PyVal.str ("# " ++ pyStr (dictGetD kvs "hook" (.str "Newsletter")))
      :: sectionParts secs
    pyJoin "\n\n" (ctaExtend kvs parts)
  | _ => .error (.attrError "object has no attribute get")

/-- The inner `format_method` of `ContentFormatter.video_script`. -/
def fmtVideoScript (c : PyVal) : Except PyErr String :=
  match c with
  | .dict kvs => do
    let secs ← pyItems (dictGetD kvs "script" (.dict []))
    pyJoin "\n\n"
      (PyVal.str ("# " ++ pyStr (dictGetD kvs "hook" (.str "Video Script")))
        :: .str ("Duration: " ++ pyStr (dictGetD kvs "duration" (.int 0)) ++ " minutes")
        :: sectionParts secs)
  | _ => .error (.attrError "object has no attribute get")

/-- The inner `format_method` of `ContentFormatter.document`. -/
def fmtDocument (c : PyVal) : Except PyErr String :=
  match c with
  | .dict kvs => do
    let secs ← pyItems (dictGetD kvs "sections" (.dict []))
    pyJoin "\n\n"
      (PyVal.str ("# " ++ pyStr (dictGetD kvs "hook" (.str "Document")))
        :: .str ("Document Type: " ++ pyStr (dictGetD kvs "doc_type" (.str "unknown")))
        :: sectionParts secs)
  | _ => .error (.attrError "object has no attribute get")

/-- The fallback rendering of `ContentFormatter.format_safely`:
an error banner plus `str(content)`. -/
def fallbackRender (c : PyVal) : String :=
  "# Error Formatting Content\n\nOriginal content:\n" ++ pyStr c

/-- `ContentFormatter.format_safely`: run the inner `format_method`; any
exception, or an empty (falsy) result (`raise ValueError("Empty formatted
content")`), yields the fallback rendering. -/
def formatSafely (c : PyVal) (m : PyVal → Except PyErr String) : String :=
  match m c with
  | .ok s => if s.isEmpty then fallbackRender c else s
  | .error _ => fallbackRender c

/-- The bound instance methods registered in `self.FORMATTERS`
(`OutputManager.__init__`). -/
def formatterFor (contentType : String) : Option (PyVal → String) :=
  if contentType = "text" then some (fun c => formatSafely c fmtText)
  else if contentType = "carousel" then some (fun c => formatSafely c fmtCarousel)
  else if contentType = "poll" then some (fun c => formatSafely c fmtPoll)
  else if contentType = "newsletter" then some (fun c => formatSafely c fmtNewsletter)
  else if contentType = "video_script" then some (fun c => formatSafely c fmtVideoScript)
  else if contentType = "document" then some (fun c => formatSafely c fmtDocument)
  else Option.none

/-- `OutputManager.MAX_RETRIES`. -/
def maxRetries : Nat := 3

/-- `OutputManager.MAX_CONTENT_SIZE` (10 MiB). -/
def maxContentSize : Nat := 10485760

/-- Trace model of `OutputManager._retry_operation`: `op i` is the outcome
of attempt `i`.  Returns the final outcome (`none` only if the loop bound
is exhausted without an attempt, impossible for `maxRetries = 3`), the
list of attempt indices actually made, and the list of backoff waits
(`2 ** attempt` seconds, slept after each non-final failure). -/
def retryLoop {E A : Type} (op : Nat → Except E A) (maxR attempt : Nat) :
    Option (Except E A) × List Nat × List Nat :=
  if _h : attempt < maxR then
    match op attempt with
    | .ok a => (some (.ok a), [attempt], [])
    | .error e =>
      if attempt = maxR - 1 then (some (.error e), [attempt], [])
      else
        let r := retryLoop op maxR (attempt + 1)
        (r.1, attempt :: r.2.1, 2 ^ attempt :: r.2.2)
  else (Option.none, [], [])
termination_by maxR - attempt

/-- `_retry_operation` with the fixed `MAX_RETRIES = 3`. -/
def retryOperation {E A : Type} (op : Nat → Except E A) :
    Option (Except E A) × List Nat × List Nat :=
  retryLoop op maxRetries 0

/-- Adversary decision for one fallible filesystem primitive: succeed,
raise, or (for a write) silently corrupt the written data. -/
inductive OpOutcome where
  | ok
  | fail
  | corrupt
deriving DecidableEq

/-- Contents of one staged/final/backup file: `_save_json` stores the
record (stdlib `json.dump`/`json.load` round-trip is modelled at the value
level), `_save_formatted` stores rendered text, `_save_yaml` the metadata
mapping; `corruptF` is a corrupted write. -/
inductive FileData where
  | jsonF (v : PyVal)
  | textF (s : String)
  | yamlF (v : PyVal)
  | corruptF
deriving DecidableEq

/-- Pipeline state: the per-call scratch directory, the final
date/kind-partitioned directory, the backup mirror (each a name-to-content
listing), the stream of adversary decisions for fallible primitives
(exhausted stream means success), a ghost counter of attempted moves, and
the integer-second clock of the rate limiter. -/
structure PState where
  temp : List (String × FileData)
  finalFiles : List (String × FileData)
  backupFiles : List (String × FileData)
  adv : List OpOutcome
  moveAttempts : Nat
  clock : Nat
  lastSaveTime : Nat
deriving DecidableEq

/-- Replace-or-append a file binding (an `open(path, "w")` write). -/
def upsertFile : List (String × FileData) → String → FileData → List (String × FileData)
  | [], n, d => [(n, d)]
  | (n0, d0) :: rest, n, d =>
    if n0 = n then (n, d) :: rest else (n0, d0) :: upsertFile rest n d

/-- Lookup of a file by name. -/
def lookupFile : List (String × FileData) → String → Option FileData
  | [], _ => Option.none
  | (n0, d0) :: rest, n => if n0 = n then some d0 else lookupFile rest n

/-- Remove a file binding by name. -/
def removeFile (files : List (String × FileData)) (n : String) :
    List (String × FileData) :=
  files.filter (fun f => f.1 ≠ n)

/-- Draw the next adversary decision (success when exhausted). -/
def nextOutcome (st : PState) : OpOutcome × PState :=
  match st.adv with
  | [] => (.ok, st)
  | o :: rest => (o, { st with adv := rest })

/-- A fallible `mkdir(parents=True, exist_ok=True)`. -/
def mkdirOp (st : PState) : Except PyErr Unit × PState :=
  match nextOutcome st with
  | (.fail, st1) => (.error (.file "mkdir failed"), st1)
  | (_, st1) => (.ok (), st1)

/-- A fallible write into the scratch directory; a `corrupt` decision
writes damaged data instead of raising. -/
def writeTempOp (name : String) (d : FileData) (st : PState) :
    Except PyErr Unit × PState :=
  match nextOutcome st with
  | (.ok, st1) => (.ok (), { st1 with temp := upsertFile st1.temp name d })
  | (.fail, st1) => (.error (.file "write failed"), st1)
  | (.corrupt, st1) =>
    (.ok (), { st1 with temp := upsertFile st1.temp name .corruptF })

/-- One `shutil.move` attempt from the scratch directory to the final
directory (also bumps the ghost move-attempt counter). -/
def moveOp (name : String) (st : PState) : Except PyErr Unit × PState :=
  match lookupFile st.temp name with
  | Option.none =>
    (.error (.file ("Missing source: " ++ name)),
     { st with moveAttempts := st.moveAttempts + 1 })
  | some d =>
    match nextOutcome { st with moveAttempts := st.moveAttempts + 1 } with
    | (.fail, st1) => (.error (.file "move failed"), st1)
    | (_, st1) =>
      (.ok (), { st1 with temp := removeFile st1.temp name,
                          finalFiles := upsertFile st1.finalFiles name d })

/-- One `shutil.copy2` attempt from the final directory to the backup
mirror. -/
def copyToBackupOp (name : String) (st : PState) : Except PyErr Unit × PState :=
  match lookupFile st.finalFiles name with
  | Option.none => (.error (.file ("Missing source: " ++ name)), st)
  | some d =>
    match nextOutcome st with
    | (.fail, st1) => (.error (.file "copy failed"), st1)
    | (_, st1) =>
      (.ok (), { st1 with backupFiles := upsertFile st1.backupFiles name d })

/-- `_retry_operation` as used inside the pipeline: up to three attempts of
a stateful primitive, keeping the failure of the third attempt. -/
def retryFS {A : Type} (op : PState → Except PyErr A × PState) (st : PState) :
    Except PyErr A × PState :=
  match op st with
  | (.ok a, st1) => (.ok a, st1)
  | (.error _, st1) =>
    match op st1 with
    | (.ok a, st2) => (.ok a, st2)
    | (.error _, st2) => op st2

/-- The message carried by an exception (Python `str(e)`). -/
def errText : PyErr → String
  | .validation m => m
  | .file m => m
  | .serialization m => m
  | .output m => m
  | .attrError m => m
  | .typeError m => m
  | .valueError m => m

/-- The scratch-directory path of a staged file. -/
def tempPathStr (name : String) : String := "tmp/" ++ name

/-- `_get_content_dir`: `<base>/<date>/<sanitized kind>`. -/
def contentDirStr (baseDir date kind : String) : String :=
  baseDir ++ "/" ++ date ++ "/" ++ sanitizeFilename (.str kind)

/-- The final path of a relocated file. -/
def finalPathStr (baseDir date kind name : String) : String :=
  contentDirStr baseDir date kind ++ "/" ++ name

/-- The extension rule of `_save_formatted`:
`'.md' if content_type != 'text' else '.txt'`. -/
def formattedExt (contentType : String) : String :=
  if contentType ≠ "text" then ".md" else ".txt"

/-- `OutputManager._save_formatted`.  For a registered kind the bound
formatter renders (it cannot raise) and the text is written with retries.
For an unregistered kind the source rebinds `formatter =
ContentFormatter.text` — the *unbound* method — and `formatter(content)`
then raises `TypeError` (the record is bound to `self` and the `content`
parameter is missing), which the surrounding `except` turns into
`OutputError("Content formatting failed: ...")`. -/
def saveFormattedStage (content : PyVal) (contentType base : String)
    (st : PState) : Except PyErr String × PState :=
  match formatterFor contentType with
  | some formatter =>
    let name := base ++ formattedExt contentType
    match mkdirOp st with
    | (.error e, st1) =>
      (.error (.output ("Content formatting failed: " ++ errText e)), st1)
    | (.ok _, st1) =>
      match retryFS (writeTempOp name (.textF (formatter content))) st1 with
      | (.error e, st2) =>
        (.error (.output ("Content formatting failed: " ++ errText e)), st2)
      | (.ok _, st2) => (.ok name, st2)
  | Option.none =>
    (.error (.output
      ("Content formatting failed: text() missing 1 required positional argument: " ++
        "content")), st)

/-- `content.get('metadata', {})` as used by `_save_all_formats`. -/
def metadataOf (content : PyVal) : PyVal :=
  match content with
  | .dict kvs => dictGetD kvs "metadata" (.dict [])
  | _ => .dict []

/-- `OutputManager._save_all_formats`: stage the JSON record, the
formatted rendering, and the metadata YAML, each write retried; any
failure is wrapped into `OutputError("Failed to save content formats")`.
Returns the tag-to-staged-file mapping in insertion order (files are
identified by their name within the scratch directory). -/
def saveAllFormats (content : PyVal) (contentType base : String)
    (st : PState) : Except PyErr (List (String × String)) × PState :=
  match retryFS (writeTempOp (base ++ ".json") (.jsonF content)) st with
  | (.error e, st1) =>
    (.error (.output ("Failed to save content formats: " ++ errText e)), st1)
  | (.ok _, st1) =>
    match saveFormattedStage content contentType base st1 with
    | (.error e, st2) =>
      (.error (.output ("Failed to save content formats: " ++ errText e)), st2)
    | (.ok fpath, st2) =>
      match retryFS (writeTempOp (base ++ "_meta.yaml") (.yamlF (metadataOf content))) st2 with
      | (.error e, st3) =>
        (.error (.output ("Failed to save content formats: " ++ errText e)), st3)
      | (.ok _, st3) =>
        (.ok [("json", base ++ ".json"),
              ("formatted", fpath),
              ("metadata", base ++ "_meta.yaml")], st3)

/-- `json.load` on a staged file: the staged record parses back to itself
(the stdlib `json.dump`/`json.load` round-trip, modelled at the value
level); a corrupted write yields junk that is still valid JSON, and
non-JSON file contents raise `ValueError`. -/
def jsonLoadFile : FileData → Except PyErr PyVal
  | .jsonF v => .ok v
  | .corruptF => .ok (.str "corrupted")
  | _ => .error (.valueError "Expecting value: line 1 column 1 (char 0)")

/-- `OutputManager._verify_saved_files`: every staged path must exist, and
the staged JSON must re-read to the pre-staging checksum; a mismatch is
`ValidationError("Content verification failed")`.  Reads are
deterministic, so this is a pure check on the state. -/
def verifyFiles (st : PState) (checksum : String) :
    List (String × String) → Except PyErr Unit
  | [] => .ok ()
  | (tag, name) :: rest =>
    match lookupFile st.temp name with
    | Option.none => .error (.file ("Missing file: " ++ tempPathStr name))
    | some d =>
      if tag = "json" then
        match jsonLoadFile d with
        | .error e => .error e
        | .ok v =>
          if computeChecksum v ≠ checksum then
            .error (.validation "Content verification failed")
          else verifyFiles st checksum rest
      else verifyFiles st checksum rest

/-- `OutputManager._move_to_final_location`: move each staged file (with
retries) into the final directory, accumulating the tag-to-file mapping
(the final path of a file is its name under the content directory); a
failure raises `FileError` with the earlier moves left in place. -/
def moveToFinal :
    List (String × String) → PState → Except PyErr (List (String × String)) × PState
  | [], st => (.ok [], st)
  | (tag, name) :: rest, st =>
    match retryFS (moveOp name) st with
    | (.error e, st1) =>
      (.error (.file ("Failed to move files to final location: " ++ errText e)), st1)
    | (.ok _, st1) =>
      match moveToFinal rest st1 with
      | (.error e, st2) => (.error e, st2)
      | (.ok fps, st2) =>
        (.ok ((tag, name) :: fps), st2)

/-- `OutputManager._create_backup`: copy each final file into the backup
mirror; the first exception aborts the loop and is swallowed (`# Don't
raise`), so this never raises. -/
def createBackup : List (String × String) → PState → PState
  | [], st => st
  | (_, name) :: rest, st =>
    match mkdirOp st with
    | (.error _, st1) => st1
    | (.ok _, st1) =>
      match copyToBackupOp name st1 with
      | (.error _, st2) => st2
      | (.ok _, st2) => createBackup rest st2

/-- The rate-limit block of `save_content` on the integer-second clock:
if less than `RATE_LIMIT_INTERVAL` (1 s) has elapsed since the last save,
sleep out the difference, then record the new last-save time. -/
def throttle (st : PState) : PState :=
  let now := if st.clock - st.lastSaveTime < 1 then st.lastSaveTime + 1 else st.clock
  { st with clock := now, lastSaveTime := now }

/-- `content.get('metadata', {}).get('topic', 'untitled')`: raises
`AttributeError` when the `metadata` value is present but not a
dictionary. -/
def topicOf (content : PyVal) : Except PyErr PyVal :=
  match content with
  | .dict kvs =>
    match lookupAssoc kvs "metadata" with
    | Option.none => .ok (.str "untitled")
    | some (.dict m) => .ok (dictGetD m "topic" (.str "untitled"))
    | some _ => .error (.attrError "object has no attribute get")
  | _ => .error (.attrError "object has no attribute get")

/-- The body of `OutputManager.save_content` before the outer
`except`/cleanup: size limit, rate limit, validation, checksum over the
deep copy, scratch staging, verification, relocation, optional backup. -/
def runSaveInner (content : PyVal) (contentType baseDir date ts : String)
    (backupCfg : Bool) (st : PState) :
    Except PyErr (List (String × String)) × PState :=
  let st := { st with temp := [], moveAttempts := 0 }
  let size := (dumpsVal content).length
  if size > maxContentSize then
    (.error (.validation ("Content size (" ++ toString size ++ " bytes) exceeds limit")), st)
  else
    let st := throttle st
    match validateContent content contentType with
    | .error e => (.error e, st)
    | .ok _ =>
      let checksum := computeChecksum content
      match mkdirOp st with
      | (.error e, st1) =>
        (.error (.file ("Failed to create content directory: " ++ errText e)), st1)
      | (.ok _, st1) =>
        match topicOf content with
        | .error e => (.error e, st1)
        | .ok topic =>
          let base := sanitizeFilename topic ++ "_" ++ ts
          match saveAllFormats content contentType base st1 with
          | (.error e, st2) => (.error e, st2)
          | (.ok stagedNames, st2) =>
            match verifyFiles st2 checksum stagedNames with
            | .error e => (.error e, st2)
            | .ok _ =>
              match moveToFinal stagedNames st2 with
              | (.error e, st3) => (.error e, st3)
              | (.ok movedNames, st3) =>
                let st4 := if backupCfg then createBackup movedNames st3 else st3
                (.ok (movedNames.map
                  (fun p => (p.1, finalPathStr baseDir date contentType p.2))), st4)

/-- `OutputManager.save_content`: run the pipeline body; the scratch
directory is removed on every exit path (the `safe_file_operation`
`finally`), and any exception is re-raised as
`OutputError("Content save failed: ...")`. -/
def runSave (content : PyVal) (contentType baseDir date ts : String)
    (backupCfg : Bool) (st : PState) :
    Except PyErr (List (String × String)) × PState :=
  match runSaveInner content contentType baseDir date ts backupCfg st with
  | (.ok paths, st1) => (.ok paths, { st1 with temp := [] })
  | (.error e, st1) =>
    (.error (.output ("Content save failed: " ++ errText e)), { st1 with temp := [] })

/-! ## Theorems -/

/-- The amended sanitization policy: map each character of the lowercased
text (non-alphanumeric, non-space, non-hyphen, non-underscore becomes
`_`), strip leading/trailing whitespace, and fall back to `"untitled"`
when the stripped result is empty.  Spaces are preserved. -/
def sanitizeAmendedPolicy (s : String) : String :=
  let mapped := String.mk ((s.toList.map Char.toLower).map
    (fun x => if x.isAlphanum || x = ' ' || x = '-' || x = '_' then x else '_'))
  if (pyStrip mapped).isEmpty then "untitled" else pyStrip mapped

/-- C6 (counterexample): the claimed value `sanitize("AI/ML 2024!") =
"ai_ml_2024_"` is wrong — the space survives sanitization, giving
`"ai_ml 2024_"`. -/
theorem c6_sanitize_counterexample :
    sanitizeFilename (.str "AI/ML 2024!") = "ai_ml 2024_" ∧
    "ai_ml 2024_" ≠ "ai_ml_2024_" := by
  refine ⟨by decide, by decide⟩

/-- C6 (amended): `_sanitize_filename` on a string lowercases it, replaces
every character that is not alphanumeric, space, hyphen or underscore by
an underscore (keeping spaces), strips leading/trailing whitespace, and
returns `"untitled"` when the input or the stripped result is empty. -/
theorem c6_sanitize_amended (s : String) :
    sanitizeFilename (.str s) = sanitizeAmendedPolicy s := by
  by_cases h : s.isEmpty
  · have hs : s = "" := by
      cases s with
      | mk data =>
        cases data with
        | nil => rfl
        | cons c cs =>
          exfalso
          simp [String.isEmpty, String.endPos] at h
          have hb := congrArg String.Pos.byteIdx h
          have hc := Char.utf8Size_pos c
          simp at hb
          omega
    subst hs
    decide
  · simp [sanitizeFilename, sanitizeAmendedPolicy, sanitizeCore, truthy, h, pyStr]

/-- C6 (witness): the amended policy at the concrete inputs of the claim. -/
theorem c6_sanitize_amended_witness :
    sanitizeFilename (.str "AI/ML 2024!") = sanitizeAmendedPolicy "AI/ML 2024!" ∧
    sanitizeFilename (.str "") = "untitled" := by
  refine ⟨c6_sanitize_amended "AI/ML 2024!", ?_⟩
  have h := c6_sanitize_amended ""
  simpa using h

/-- C5: `_retry_operation` attempts an always-failing operation exactly
three times (indices 0, 1, 2), sleeping `2^0 = 1` and `2^1 = 2` seconds
after the first and second failures (total delay 3 ≥ 3), and re-raises the
third failure unchanged; an operation whose attempt `k < 3` succeeds after
`k` failures returns its result after exactly `k + 1` attempts with waits
`2^0 .. 2^(k-1)`. -/
theorem c5_retry_operation :
    (∀ (op : Nat → Except PyErr Unit) (e : Nat → PyErr),
      (∀ i, op i = .error (e i)) →
      retryOperation op = (some (.error (e 2)), [0, 1, 2], [1, 2]) ∧
      3 ≤ (retryOperation op).2.2.sum) ∧
    (∀ (op : Nat → Except PyErr Unit) (k : Nat) (x : Unit),
      k < 3 → (∀ i, i < k → ∃ er, op i = .error er) → op k = .ok x →
      retryOperation op =
        (some (.ok x), List.range (k + 1), (List.range k).map (fun i => 2 ^ i))) := by
  constructor
  · intro op e h
    have h0 := h 0
    have h1 := h 1
    have h2 := h 2
    constructor
    · simp [retryOperation, retryLoop, h0, h1, h2, maxRetries]
    · simp [retryOperation, retryLoop, h0, h1, h2, maxRetries]
  · intro op k x hk herr hok
    interval_cases k
    · simp [retryOperation, retryLoop, hok, maxRetries, List.range_succ]
    · obtain ⟨e0, h0⟩ := herr 0 (by omega)
      simp [retryOperation, retryLoop, h0, hok, maxRetries, List.range_succ]
    · obtain ⟨e0, h0⟩ := herr 0 (by omega)
      obtain ⟨e1, h1⟩ := herr 1 (by omega)
      simp [retryOperation, retryLoop, h0, h1, hok, maxRetries, List.range_succ]

/-- C5 (witness): a concrete always-failing operation and a concrete
second-attempt success. -/
theorem c5_retry_operation_witness :
    retryOperation (fun i => (.error (.file (toString i)) : Except PyErr Unit)) =
      (some (.error (.file "2")), [0, 1, 2], [1, 2]) ∧
    retryOperation (fun i => if i = 0 then (.error (.file "0") : Except PyErr Unit) else .ok ()) =
      (some (.ok ()), List.range 2, (List.range 1).map (fun i => 2 ^ i)) := by
  constructor
  · exact (c5_retry_operation.1 (fun i => .error (.file (toString i)))
      (fun i => .file (toString i)) (fun i => rfl)).1
  · exact c5_retry_operation.2
      (fun i => if i = 0 then .error (.file "0") else .ok ()) 1 ()
      (by omega)
      (fun i hi => ⟨.file "0", by
        have hi0 : i = 0 := by omega
        subst hi0
        simp⟩)
      (by simp)

/-- The kind-specific shape table of spec §3, stated from the spec words
for comparison with the code: `text` needs a non-empty *string*
`content`, `carousel`/`poll` a sequence, `newsletter`/`document` a
mapping, `video_script` a non-empty *mapping*. -/
def specShapeOK (kind : String) (content : PyVal) : Bool :=
  match content with
  | .dict kvs =>
    if kind = "text" then
      match lookupAssoc kvs "content" with
      | some (.str s) => !s.isEmpty
      | _ => false
    else if kind = "carousel" then
      match lookupAssoc kvs "slides" with
      | some (.list _) => true
      | _ => false
    else if kind = "poll" then
      match lookupAssoc kvs "options" with
      | some (.list _) => true
      | _ => false
    else if kind = "newsletter" then
      match lookupAssoc kvs "sections" with
      | some (.dict _) => true
      | _ => false
    else if kind = "video_script" then
      match lookupAssoc kvs "script" with
      | some (.dict m) => !m.isEmpty
      | _ => false
    else if kind = "document" then
      match lookupAssoc kvs "sections" with
      | some (.dict _) => true
      | _ => false
    else false
  | _ => false

/-- C4 (counterexample): `validate_content` accepts a `text` record whose
`content` field is a non-empty *list*, which the §3 table (non-empty
string) rejects — the code checks truthiness, not the claimed shapes. -/
theorem c4_validate_counterexample :
    validateContent (.dict [("metadata", .dict []), ("content", .list [.int 1])]) "text" =
      .ok () ∧
    specShapeOK "text" (.dict [("metadata", .dict []), ("content", .list [.int 1])]) =
      false := by
  exact ⟨rfl, rfl⟩

/-- The kind-specific requirement actually enforced by the code:
truthiness for `text`/`video_script`, `isinstance(..., list)` for
`carousel`/`poll`, `isinstance(..., dict)` for `newsletter`/`document`. -/
def kindFieldOK (kind : String) (kvs : List (String × PyVal)) : Prop :=
  (kind = "text" ∧ ∃ v, lookupAssoc kvs "content" = some v ∧ truthy v = true) ∨
  (kind = "carousel" ∧ ∃ v, lookupAssoc kvs "slides" = some v ∧ isList v = true) ∨
  (kind = "poll" ∧ ∃ v, lookupAssoc kvs "options" = some v ∧ isList v = true) ∨
  (kind = "newsletter" ∧ ∃ v, lookupAssoc kvs "sections" = some v ∧ isDict v = true) ∨
  (kind = "video_script" ∧ ∃ v, lookupAssoc kvs "script" = some v ∧ truthy v = true) ∨
  (kind = "document" ∧ ∃ v, lookupAssoc kvs "sections" = some v ∧ isDict v = true)

/-- `_validate_text` succeeds iff `content` is present and truthy. -/
theorem validateText_ok_iff (kvs : List (String × PyVal)) :
    validateText kvs = .ok () ↔
      ∃ v, lookupAssoc kvs "content" = some v ∧ truthy v = true := by
  unfold validateText
  cases hv : lookupAssoc kvs "content" with
  | none => simp
  | some v => by_cases ht : truthy v <;> simp [ht]

/-- `_validate_carousel` succeeds iff `slides` is present and a list. -/
theorem validateCarousel_ok_iff (kvs : List (String × PyVal)) :
    validateCarousel kvs = .ok () ↔
      ∃ v, lookupAssoc kvs "slides" = some v ∧ isList v = true := by
  unfold validateCarousel
  cases hv : lookupAssoc kvs "slides" with
  | none => simp
  | some v => by_cases ht : isList v <;> simp [ht]

/-- `_validate_poll` succeeds iff `options` is present and a list. -/
theorem validatePoll_ok_iff (kvs : List (String × PyVal)) :
    validatePoll kvs = .ok () ↔
      ∃ v, lookupAssoc kvs "options" = some v ∧ isList v = true := by
  unfold validatePoll
  cases hv : lookupAssoc kvs "options" with
  | none => simp
  | some v => by_cases ht : isList v <;> simp [ht]

/-- `_validate_newsletter` succeeds iff `sections` is present and a
mapping. -/
theorem validateNewsletter_ok_iff (kvs : List (String × PyVal)) :
    validateNewsletter kvs = .ok () ↔
      ∃ v, lookupAssoc kvs "sections" = some v ∧ isDict v = true := by
  unfold validateNewsletter
  cases hv : lookupAssoc kvs "sections" with
  | none => simp
  | some v => by_cases ht : isDict v <;> simp [ht]

/-- `_validate_video_script` succeeds iff `script` is present and truthy. -/
theorem validateVideoScript_ok_iff (kvs : List (String × PyVal)) :
    validateVideoScript kvs = .ok () ↔
      ∃ v, lookupAssoc kvs "script" = some v ∧ truthy v = true := by
  unfold validateVideoScript
  cases hv : lookupAssoc kvs "script" with
  | none => simp
  | some v => by_cases ht : truthy v <;> simp [ht]

/-- `_validate_document` succeeds iff `sections` is present and a
mapping. -/
theorem validateDocument_ok_iff (kvs : List (String × PyVal)) :
    validateDocument kvs = .ok () ↔
      ∃ v, lookupAssoc kvs "sections" = some v ∧ isDict v = true := by
  unfold validateDocument
  cases hv : lookupAssoc kvs "sections" with
  | none => simp
  | some v => by_cases ht : isDict v <;> simp [ht]

/-- C4 (amended): `validate_content` raises `ValidationError` exactly when
the record is not a mapping, or empty, or lacks `metadata`, or its
kind-specific field is absent or fails the code's check (truthy for
`text`/`video_script`, a list for `carousel`/`poll`, a mapping for
`newsletter`/`document`); every kind outside the six registered ones is
rejected.  (Validation is a pure check: the embedding returns a value and
touches no state.) -/
theorem c4_validate_amended (content : PyVal) (kind : String) :
    (validateContent content kind = .ok () ↔
      ∃ kvs, content = .dict kvs ∧ kvs ≠ [] ∧ hasKey kvs "metadata" = true ∧
        kindFieldOK kind kvs) ∧
    (kind ∉ ["text", "carousel", "poll", "newsletter", "video_script", "document"] →
      ∃ m, validateContent content kind = .error (.validation m)) := by
  constructor
  · match content with
    | .none | .bool _ | .int _ | .str _ | .list _ => simp [validateContent]
    | .dict kvs =>
      simp only [validateContent]
      by_cases hemp : kvs.isEmpty
      · have : kvs = [] := List.isEmpty_iff.mp hemp
        subst this
        simp
      · have hne : kvs ≠ [] := by
          intro hn
          subst hn
          exact hemp rfl
        by_cases hmeta : hasKey kvs "metadata"
        · simp only [hemp, hmeta, if_false, Bool.not_true, Bool.false_eq_true]
          by_cases h1 : kind = "text"
          · subst h1
            simp [validatorFor, validateText_ok_iff, kindFieldOK, hne, hmeta]
          · by_cases h2 : kind = "carousel"
            · subst h2
              simp [validatorFor, validateCarousel_ok_iff, kindFieldOK, hne, hmeta]
            · by_cases h3 : kind = "poll"
              · subst h3
                simp [validatorFor, validatePoll_ok_iff, kindFieldOK, hne, hmeta]
              · by_cases h4 : kind = "newsletter"
                · subst h4
                  simp [validatorFor, validateNewsletter_ok_iff, kindFieldOK, hne, hmeta]
                · by_cases h5 : kind = "video_script"
                  · subst h5
                    simp [validatorFor, validateVideoScript_ok_iff, kindFieldOK, hne, hmeta]
                  · by_cases h6 : kind = "document"
                    · subst h6
                      simp [validatorFor, validateDocument_ok_iff, kindFieldOK, hne, hmeta]
                    · simp [validatorFor, h1, h2, h3, h4, h5, h6, kindFieldOK]
        · simp only [Bool.not_eq_true] at hmeta
          simp [hmeta, kindFieldOK, hne]
  · intro hnot
    simp only [List.mem_cons, List.not_mem_nil, or_false] at hnot
    push_neg at hnot
    obtain ⟨h1, h2, h3, h4, h5, h6⟩ := hnot
    match content with
    | .none => exact ⟨"Content must be a dictionary", rfl⟩
    | .bool b => exact ⟨"Content must be a dictionary", rfl⟩
    | .int n => exact ⟨"Content must be a dictionary", rfl⟩
    | .str s => exact ⟨"Content must be a dictionary", rfl⟩
    | .list xs => exact ⟨"Content must be a dictionary", rfl⟩
    | .dict kvs =>
      by_cases hemp : kvs.isEmpty
      · exact ⟨"Content is empty", by simp [validateContent, hemp]⟩
      · by_cases hmeta : hasKey kvs "metadata"
        · refine ⟨"No validator found for content type: " ++ kind, ?_⟩
          simp [validateContent, hemp, hmeta, validatorFor, h1, h2, h3, h4, h5, h6]
        · refine ⟨"Content missing 'metadata' field", ?_⟩
          simp only [Bool.not_eq_true] at hmeta
          simp [validateContent, hemp, hmeta]

/-- C4 (witness): the amended characterization at a concrete accepted
record, a concrete rejected record, and a concrete unknown kind. -/
theorem c4_validate_amended_witness :
    validateContent (.dict [("metadata", .dict []), ("content", .str "x")]) "text" =
      .ok () ∧
    ∃ m, validateContent (.dict [("metadata", .dict [])]) "reel" =
      .error (.validation m) := by
  constructor
  · exact (c4_validate_amended (.dict [("metadata", .dict []), ("content", .str "x")])
      "text").1.mpr
      ⟨[("metadata", .dict []), ("content", .str "x")], rfl, by simp, by decide,
        Or.inl ⟨rfl, .str "x", by decide, by decide⟩⟩
  · exact (c4_validate_amended (.dict [("metadata", .dict [])]) "reel").2 (by decide)

/-- C10: `_normalize_content` returns non-mapping input unchanged; on a
mapping it removes exactly the top-level `generation_time` and `metadata`
entries, keeping every other binding (nested values untouched, including
nested occurrences of the volatile keys); consequently two records that
differ only in a *nested* `metadata` value have different checksums.
(The source pops the keys from a shallow copy, so the caller's record is
not mutated — the embedding is value-level.) -/
theorem c10_normalize :
    (∀ v : PyVal, isDict v = false → normalizeContent v = v) ∧
    (∀ kvs : List (String × PyVal),
      normalizeContent (.dict kvs) =
        .dict (kvs.filter (fun kv => kv.1 ≠ "generation_time" ∧ kv.1 ≠ "metadata"))) ∧
    (∀ (kvs : List (String × PyVal)) (k : String) (v : PyVal),
      (k, v) ∈ kvs → k ≠ "generation_time" → k ≠ "metadata" →
      ∃ entries, normalizeContent (.dict kvs) = .dict entries ∧ (k, v) ∈ entries) ∧
    computeChecksum (.dict [("content", .dict [("metadata", .int 1)])]) ≠
      computeChecksum (.dict [("content", .dict [("metadata", .int 2)])]) := by
  refine ⟨?_, ?_, ?_, ?_⟩
  · intro v hv
    cases v <;> simp_all [isDict, normalizeContent]
  · intro kvs
    rfl
  · intro kvs k v hmem h1 h2
    refine ⟨kvs.filter (fun kv => kv.1 ≠ "generation_time" ∧ kv.1 ≠ "metadata"), rfl, ?_⟩
    exact List.mem_filter.mpr ⟨hmem, by simp [h1, h2]⟩
  · decide

/-- C10 (witness): the membership clause at a concrete record with a
nested `metadata` occurrence. -/
theorem c10_normalize_witness :
    ∃ entries,
      normalizeContent (.dict [("metadata", .int 0), ("payload", .dict [("metadata", .int 7)])]) =
        .dict entries ∧ ("payload", PyVal.dict [("metadata", .int 7)]) ∈ entries :=
  c10_normalize.2.2.1 [("metadata", .int 0), ("payload", .dict [("metadata", .int 7)])]
    "payload" (.dict [("metadata", .int 7)]) (by simp) (by decide) (by decide)

/-- C7: rendering never escapes the formatter for a *registered* kind —
`format_safely` returns either the successful non-empty rendering or the
error-banner fallback.  For an *unregistered* kind, however, the source
rebinds the unbound `ContentFormatter.text` and calls it with one
argument, so `_save_formatted` raises `OutputError` instead of rendering
with the text formatter (the logged "using text format" intent): the
state is returned unchanged and the save fails. -/
theorem c7_formatter_fallback :
    (∀ (c : PyVal) (m : PyVal → Except PyErr String),
      formatSafely c m = fallbackRender c ∨
      ∃ s, m c = .ok s ∧ s ≠ "" ∧ formatSafely c m = s) ∧
    (∀ kind, formatterFor kind = Option.none →
      ∀ (content : PyVal) (base : String) (st : PState),
        saveFormattedStage content kind base st =
          (.error (.output
            ("Content formatting failed: text() missing 1 required positional argument: " ++
              "content")), st)) := by
  constructor
  · intro c m
    unfold formatSafely
    cases hm : m c with
    | error e => exact Or.inl rfl
    | ok s =>
      by_cases hs : s.isEmpty
      · exact Or.inl (by simp [hs])
      · refine Or.inr ⟨s, rfl, ?_, by simp [hs]⟩
        intro hserr
        subst hserr
        exact hs rfl
  · intro kind hk content base st
    unfold saveFormattedStage
    rw [hk]

/-- C7 (witness): the fallback characterization at a concrete record, and
the unregistered-kind failure at the concrete kind `"reel"`. -/
theorem c7_formatter_fallback_witness :
    (formatSafely (.int 3) fmtText = fallbackRender (.int 3) ∨
      ∃ s, fmtText (.int 3) = .ok s ∧ s ≠ "" ∧ formatSafely (.int 3) fmtText = s) ∧
    saveFormattedStage (.dict []) "reel" "b" ⟨[], [], [], [], 0, 0, 0⟩ =
      (.error (.output
        ("Content formatting failed: text() missing 1 required positional argument: " ++
          "content")), ⟨[], [], [], [], 0, 0, 0⟩) := by
  refine ⟨c7_formatter_fallback.1 (.int 3) fmtText, ?_⟩
  exact c7_formatter_fallback.2 "reel" rfl (.dict []) "b" ⟨[], [], [], [], 0, 0, 0⟩

/-- Lookup misses exactly the keys that are absent. -/
theorem lookupAssoc_eq_none_iff (l : List (String × PyVal)) (k : String) :
    lookupAssoc l k = Option.none ↔ k ∉ l.map Prod.fst := by
  induction l with
  | nil => simp [lookupAssoc]
  | cons p r ih =>
    obtain ⟨pk, pv⟩ := p
    by_cases hk : pk = k
    · subst hk
      simp [lookupAssoc]
    · simp only [lookupAssoc, hk, if_false, ih, List.map_cons, List.mem_cons]
      constructor
      · intro hni hor
        rcases hor with h1 | h2
        · exact hk h1.symm
        · exact hni h2
      · intro hni h2
        exact hni (Or.inr h2)

/-- A successful lookup splits the list at the first occurrence of the
key. -/
theorem lookupAssoc_split :
    ∀ (l : List (String × PyVal)) (k : String) (v : PyVal),
      lookupAssoc l k = some v →
      ∃ a b, l = a ++ (k, v) :: b ∧ k ∉ a.map Prod.fst
  | [], k, v, h => by simp [lookupAssoc] at h
  | (k0, v0) :: rest, k, v, h => by
    by_cases hk : k0 = k
    · subst hk
      rw [lookupAssoc, if_pos rfl] at h
      obtain rfl : v0 = v := by injection h
      exact ⟨[], rest, rfl, by simp⟩
    · rw [lookupAssoc, if_neg hk] at h
      obtain ⟨a, b, rfl, hka⟩ := lookupAssoc_split rest k v h
      refine ⟨(k0, v0) :: a, b, rfl, ?_⟩
      simp only [List.map_cons, List.mem_cons]
      rintro (h1 | h2)
      · exact hk h1.symm
      · exact hka h2

/-- Removing a middle entry does not change other keys' lookups. -/
theorem lookupAssoc_middle_ne (a b : List (String × PyVal)) (k k0 : String)
    (v0 : PyVal) (hk : k ≠ k0) :
    lookupAssoc (a ++ (k0, v0) :: b) k = lookupAssoc (a ++ b) k := by
  induction a with
  | nil =>
    show lookupAssoc ((k0, v0) :: b) k = lookupAssoc b k
    rw [lookupAssoc, if_neg (show k0 ≠ k from fun h => hk h.symm)]
  | cons p r ih =>
    obtain ⟨pk, pv⟩ := p
    by_cases hp : pk = k
    · simp [lookupAssoc, hp]
    · simp [lookupAssoc, hp, ih]

/-- Association lists with distinct keys and the same lookup function are
permutations of each other. -/
theorem perm_of_lookupAssoc_eq :
    ∀ (l1 l2 : List (String × PyVal)),
      (l1.map Prod.fst).Nodup → (l2.map Prod.fst).Nodup →
      (∀ k, lookupAssoc l1 k = lookupAssoc l2 k) → l1.Perm l2
  | [], l2, _, _, hl => by
    cases l2 with
    | nil => exact List.Perm.refl []
    | cons p r =>
      exfalso
      obtain ⟨pk, pv⟩ := p
      have h := hl pk
      simp [lookupAssoc] at h
  | (k, v) :: t, l2, h1, h2, hl => by
    have hk : lookupAssoc l2 k = some v := by
      have h := hl k
      rw [lookupAssoc, if_pos rfl] at h
      exact h.symm
    obtain ⟨a, b, rfl, hka⟩ := lookupAssoc_split l2 k v hk
    simp only [List.map_cons] at h1
    obtain ⟨hknott, ht1⟩ := List.nodup_cons.mp h1
    rw [List.map_append, List.map_cons] at h2
    obtain ⟨hna, hnkb, hdisj⟩ := List.nodup_append.mp h2
    obtain ⟨hkb, hnb⟩ := List.nodup_cons.mp hnkb
    have hab_nodup : ((a ++ b).map Prod.fst).Nodup := by
      rw [List.map_append]
      exact List.nodup_append.mpr
        ⟨hna, hnb, fun x hxa hxb => hdisj hxa (List.mem_cons_of_mem _ hxb)⟩
    have hlook : ∀ k2, lookupAssoc t k2 = lookupAssoc (a ++ b) k2 := by
      intro k2
      by_cases hk2 : k2 = k
      · subst hk2
        rw [(lookupAssoc_eq_none_iff t k2).mpr hknott,
          (lookupAssoc_eq_none_iff (a ++ b) k2).mpr]
        rw [List.map_append]
        intro hmem
        rcases List.mem_append.mp hmem with hx | hx
        · exact hka hx
        · exact hkb hx
      · have h := hl k2
        rw [lookupAssoc, if_neg (fun hh => hk2 hh.symm)] at h
        rw [h, lookupAssoc_middle_ne a b k2 k v hk2]
    have ih := perm_of_lookupAssoc_eq t (a ++ b) ht1 hab_nodup hlook
    exact (ih.cons (k, v)).trans List.perm_middle.symm

instance : IsTotal (String × PyVal) keyOrder := ⟨fun a b => le_total a.1 b.1⟩

instance : IsTrans (String × PyVal) keyOrder := ⟨fun _ _ _ h1 h2 => le_trans h1 h2⟩

instance : IsAntisymm (String × PyVal) (fun p q : String × PyVal => p.1 < q.1) :=
  ⟨fun a b h1 h2 => absurd (lt_trans h1 h2) (lt_irrefl _)⟩

/-- On key-distinct lists, `sorted(dct.items())` is canonical: any
permutation sorts to the same list. -/
theorem insertionSort_eq_of_perm (l1 l2 : List (String × PyVal))
    (hp : l1.Perm l2) (hnd : (l1.map Prod.fst).Nodup) :
    List.insertionSort keyOrder l1 = List.insertionSort keyOrder l2 := by
  have hs1 := List.sorted_insertionSort keyOrder l1
  have hs2 := List.sorted_insertionSort keyOrder l2
  have hp1 := List.perm_insertionSort keyOrder l1
  have hp2 := List.perm_insertionSort keyOrder l2
  have hperm : (List.insertionSort keyOrder l1).Perm (List.insertionSort keyOrder l2) :=
    hp1.trans (hp.trans hp2.symm)
  have hnd1 : ((List.insertionSort keyOrder l1).map Prod.fst).Nodup :=
    ((hp1.map Prod.fst).nodup_iff).mpr hnd
  have hnd2 : ((List.insertionSort keyOrder l2).map Prod.fst).Nodup :=
    ((hperm.map Prod.fst).nodup_iff).mp hnd1
  have hlt1 : (List.insertionSort keyOrder l1).Pairwise
      (fun p q : String × PyVal => p.1 < q.1) := by
    have hne := List.pairwise_map.mp hnd1
    exact (hs1.and hne).imp (fun h => lt_of_le_of_ne h.1 h.2)
  have hlt2 : (List.insertionSort keyOrder l2).Pairwise
      (fun p q : String × PyVal => p.1 < q.1) := by
    have hne := List.pairwise_map.mp hnd2
    exact (hs2.and hne).imp (fun h => lt_of_le_of_ne h.1 h.2)
  exact List.eq_of_perm_of_sorted hperm hlt1 hlt2

/-- Lookup after dropping the volatile keys. -/
theorem lookupAssoc_filter_volatile (l : List (String × PyVal)) (k : String) :
    lookupAssoc (l.filter (fun kv => kv.1 ≠ "generation_time" ∧ kv.1 ≠ "metadata")) k =
      if k = "generation_time" ∨ k = "metadata" then Option.none
      else lookupAssoc l k := by
  induction l with
  | nil => simp [lookupAssoc]
  | cons p r ih =>
    obtain ⟨pk, pv⟩ := p
    by_cases hp : pk ≠ "generation_time" ∧ pk ≠ "metadata"
    · rw [List.filter_cons_of_pos (by simpa using hp)]
      by_cases hk : pk = k
      · subst hk
        simp [lookupAssoc, hp.1, hp.2]
      · rw [lookupAssoc, if_neg hk, ih, lookupAssoc, if_neg hk]
    · rw [List.filter_cons_of_neg (by simpa using hp)]
      rw [ih]
      rw [Classical.not_and_iff_or_not_not, not_not, not_not] at hp
      by_cases hk : pk = k
      · subst hk
        simp [lookupAssoc, hp]
      · rw [lookupAssoc, if_neg hk]

/-- Dropping entries keeps the remaining keys distinct. -/
theorem nodup_keys_filter (l : List (String × PyVal))
    (p : String × PyVal → Bool) (hnd : (l.map Prod.fst).Nodup) :
    ((l.filter p).map Prod.fst).Nodup :=
  hnd.sublist ((l.filter_sublist).map Prod.fst)

/-- `sortDictsKVs` maps `sortDicts` over the values. -/
theorem sortDictsKVs_eq_map (l : List (String × PyVal)) :
    sortDictsKVs l = l.map (fun kv => (kv.1, sortDicts kv.2)) := by
  induction l with
  | nil => rfl
  | cons p r ih =>
    obtain ⟨k, v⟩ := p
    simp [sortDictsKVs, ih]

/-- `sortDictsKVs` does not change the keys. -/
theorem sortDictsKVs_keys (l : List (String × PyVal)) :
    (sortDictsKVs l).map Prod.fst = l.map Prod.fst := by
  rw [sortDictsKVs_eq_map, List.map_map]
  rfl

/-- A lowercase hexadecimal digit character. -/
def isLowerHexDigit (c : Char) : Bool :=
  c.isDigit || (97 ≤ c.toNat && c.toNat ≤ 102)

/-- `hexDigit` of a nibble is a lowercase hex character. -/
theorem hexDigit_isLowerHex : ∀ n, n < 16 → isLowerHexDigit (hexDigit n) = true := by
  decide

/-- One SHA-256 compression step returns eight words. -/
theorem sha256Compress_length (hs block : List Nat) :
    (sha256Compress hs block).length = 8 := rfl

/-- The block fold preserves the eight-word hash state. -/
theorem sha256BlocksGo_length (fuel : Nat) :
    ∀ hs bytes, hs.length = 8 → (sha256BlocksGo fuel hs bytes).length = 8 := by
  induction fuel with
  | zero => intro hs bytes h; exact h
  | succ f ih =>
    intro hs bytes h
    unfold sha256BlocksGo
    split
    · exact h
    · exact ih _ _ (sha256Compress_length hs _)

/-- Every SHA-256 hex digest has 64 characters. -/
theorem sha256hex_length (s : String) : (sha256hex s).length = 64 := by
  unfold sha256hex
  have hw : (sha256Blocks sha256H0 (sha256Pad (utf8Bytes s))).length = 8 :=
    sha256BlocksGo_length _ _ _ rfl
  generalize hws : sha256Blocks sha256H0 (sha256Pad (utf8Bytes s)) = ws at hw
  show (String.mk ((ws.map hexChars8).flatten)).length = 64
  have hlen : ∀ w, (hexChars8 w).length = 8 := by
    intro w
    simp [hexChars8]
  show ((ws.map hexChars8).flatten).length = 64
  rw [List.length_flatten, List.map_map]
  have : (List.map (List.length ∘ hexChars8) ws) = List.map (fun _ => 8) ws :=
    List.map_congr_left (fun w _ => hlen w)
  rw [this, List.map_const', hw]
  decide

/-- Every character of a SHA-256 hex digest is a lowercase hex digit. -/
theorem sha256hex_chars (s : String) :
    ∀ c ∈ (sha256hex s).toList, isLowerHexDigit c = true := by
  intro c hc
  unfold sha256hex at hc
  simp only [String.toList, String.mk, List.mem_flatten, List.mem_map] at hc
  obtain ⟨l, ⟨w, hw, rfl⟩, hcl⟩ := hc
  simp only [hexChars8, List.mem_map, List.mem_range] at hcl
  obtain ⟨i, hi, rfl⟩ := hcl
  exact hexDigit_isLowerHex _ (Nat.mod_lt _ (by omega))

/-- C3: two records (with distinct keys, as Python dictionaries have) that
agree on every field other than `generation_time` and `metadata` — either
may hold those volatile fields, with any values — have equal checksums;
and the checksum is the SHA-256 hex digest of the canonical
(recursively key-sorted, deterministic) serialization of the normalized
record: a fixed-length (64) string of lowercase hex digits. -/
theorem c3_checksum_volatile (l1 l2 : List (String × PyVal))
    (h1 : (l1.map Prod.fst).Nodup) (h2 : (l2.map Prod.fst).Nodup)
    (hagree : ∀ k, k ≠ "generation_time" → k ≠ "metadata" →
      lookupAssoc l1 k = lookupAssoc l2 k) :
    computeChecksum (.dict l1) = computeChecksum (.dict l2) ∧
    computeChecksum (.dict l1) =
      sha256hex (jsonDumpsSorted (normalizeContent (.dict l1))) ∧
    (computeChecksum (.dict l1)).length = 64 ∧
    ∀ c ∈ (computeChecksum (.dict l1)).toList, isLowerHexDigit c = true := by
  refine ⟨?_, rfl, sha256hex_length _, sha256hex_chars _⟩
  have hk1 := nodup_keys_filter l1
    (fun kv => decide (kv.1 ≠ "generation_time" ∧ kv.1 ≠ "metadata")) h1
  have hk2 := nodup_keys_filter l2
    (fun kv => decide (kv.1 ≠ "generation_time" ∧ kv.1 ≠ "metadata")) h2
  have hlookEq : ∀ k,
      lookupAssoc (l1.filter (fun kv => kv.1 ≠ "generation_time" ∧ kv.1 ≠ "metadata")) k =
      lookupAssoc (l2.filter (fun kv => kv.1 ≠ "generation_time" ∧ kv.1 ≠ "metadata")) k := by
    intro k
    rw [lookupAssoc_filter_volatile, lookupAssoc_filter_volatile]
    by_cases hvol : k = "generation_time" ∨ k = "metadata"
    · simp [hvol]
    · push_neg at hvol
      rw [if_neg (by tauto), if_neg (by tauto)]
      exact hagree k hvol.1 hvol.2
  have hperm := perm_of_lookupAssoc_eq _ _ hk1 hk2 hlookEq
  have hpermMap : (sortDictsKVs
      (l1.filter (fun kv => kv.1 ≠ "generation_time" ∧ kv.1 ≠ "metadata"))).Perm
      (sortDictsKVs (l2.filter (fun kv => kv.1 ≠ "generation_time" ∧ kv.1 ≠ "metadata"))) := by
    rw [sortDictsKVs_eq_map, sortDictsKVs_eq_map]
    exact hperm.map _
  have hmnd : ((sortDictsKVs
      (l1.filter (fun kv => kv.1 ≠ "generation_time" ∧ kv.1 ≠ "metadata"))).map
      Prod.fst).Nodup := by
    rw [sortDictsKVs_keys]
    exact hk1
  have hsorteq := insertionSort_eq_of_perm _ _ hpermMap hmnd
  simp only [computeChecksum, jsonDumpsSorted, normalizeContent, sortDicts]
  rw [hsorteq]

/-- C3 (witness): equal checksums at two concrete records that differ in
the presence and values of `generation_time` and `metadata` and in the
order of the shared field. -/
theorem c3_checksum_volatile_witness :
    computeChecksum (.dict [("content", .str "x"), ("generation_time", .str "t1")]) =
      computeChecksum (.dict [("metadata", .dict [("topic", .str "y")]), ("content", .str "x")]) := by
  refine (c3_checksum_volatile
    [("content", .str "x"), ("generation_time", .str "t1")]
    [("metadata", .dict [("topic", .str "y")]), ("content", .str "x")]
    (by decide) (by decide) ?_).1
  intro k hk1 hk2
  simp only [lookupAssoc]
  rw [if_neg (show "generation_time" ≠ k from fun h => hk1 h.symm),
    if_neg (show "metadata" ≠ k from fun h => hk2 h.symm)]

/-- Appending different suffixes to the same string gives different
strings. -/
theorem string_append_right_ne (a b c : String) (h : b ≠ c) :
    a ++ b ≠ a ++ c := by
  intro hh
  apply h
  have hd := congrArg String.data hh
  rw [String.data_append, String.data_append] at hd
  exact String.ext (List.append_cancel_left hd)

/-- With no injected failures, drawing an outcome succeeds and leaves the
state unchanged. -/
theorem nextOutcome_nil (st : PState) (h : st.adv = []) :
    nextOutcome st = (.ok, st) := by
  unfold nextOutcome
  rw [h]

/-- `mkdir` with no injected failures. -/
theorem mkdirOp_nil (st : PState) (h : st.adv = []) :
    mkdirOp st = (.ok (), st) := by
  unfold mkdirOp
  rw [nextOutcome_nil st h]

/-- A staged write with no injected failures. -/
theorem writeTempOp_nil (name : String) (d : FileData) (st : PState)
    (h : st.adv = []) :
    writeTempOp name d st = (.ok (), { st with temp := upsertFile st.temp name d }) := by
  unfold writeTempOp
  rw [nextOutcome_nil st h]

/-- A move with no injected failures and an existing source file. -/
theorem moveOp_nil (name : String) (d : FileData) (st : PState)
    (h : st.adv = []) (hl : lookupFile st.temp name = some d) :
    moveOp name st =
      (.ok (),
        { st with
            moveAttempts := st.moveAttempts + 1
            temp := removeFile st.temp name
            finalFiles := upsertFile st.finalFiles name d }) := by
  unfold moveOp
  have h0 : ({ st with moveAttempts := st.moveAttempts + 1 } : PState).adv = [] := h
  rw [hl, nextOutcome_nil _ h0]

/-- A retried operation that succeeds at once. -/
theorem retryFS_first_ok {A : Type} (op : PState → Except PyErr A × PState)
    (st st1 : PState) (a : A) (h : op st = (.ok a, st1)) :
    retryFS op st = (.ok a, st1) := by
  unfold retryFS
  rw [h]

/-- Looking up the key just written. -/
theorem lookupFile_upsert_self (files : List (String × FileData))
    (n : String) (d : FileData) :
    lookupFile (upsertFile files n d) n = some d := by
  induction files with
  | nil => simp [upsertFile, lookupFile]
  | cons p r ih =>
    obtain ⟨pn, pd⟩ := p
    by_cases hp : pn = n
    · subst hp
      simp [upsertFile, lookupFile]
    · simp [upsertFile, lookupFile, hp, ih]

/-- Writing one file does not affect lookups of other names. -/
theorem lookupFile_upsert_ne (files : List (String × FileData))
    (n n2 : String) (d : FileData) (h : n2 ≠ n) :
    lookupFile (upsertFile files n d) n2 = lookupFile files n2 := by
  induction files with
  | nil => simp [upsertFile, lookupFile, Ne.symm h]
  | cons p r ih =>
    obtain ⟨pn, pd⟩ := p
    by_cases hp : pn = n
    · subst hp
      simp [upsertFile, lookupFile, Ne.symm h]
    · simp only [upsertFile, if_neg hp, lookupFile]
      by_cases hp2 : pn = n2
      · simp [hp2]
      · simp [hp2, ih]

/-- Removing one file does not affect lookups of other names. -/
theorem lookupFile_remove_ne (files : List (String × FileData))
    (n n2 : String) (h : n2 ≠ n) :
    lookupFile (removeFile files n) n2 = lookupFile files n2 := by
  induction files with
  | nil => simp [removeFile, lookupFile]
  | cons p r ih =>
    obtain ⟨pn, pd⟩ := p
    by_cases hp : pn = n
    · subst hp
      have hdrop : removeFile ((pn, pd) :: r) pn = removeFile r pn := by
        simp [removeFile]
      rw [hdrop, ih]
      simp only [lookupFile]
      rw [if_neg (Ne.symm h)]
    · have hkeep : removeFile ((pn, pd) :: r) n = (pn, pd) :: removeFile r n := by
        simp [removeFile, hp]
      rw [hkeep]
      simp only [lookupFile]
      by_cases hp2 : pn = n2
      · simp [hp2]
      · simp [hp2, ih]

/-- A record accepted by validation has a registered formatter (the same
six kinds are registered in both dispatch tables). -/
theorem formatterFor_isSome_of_valid (content : PyVal) (k : String)
    (h : validateContent content k = .ok ()) : ∃ f, formatterFor k = some f := by
  match content with
  | .none | .bool _ | .int _ | .str _ | .list _ => simp [validateContent] at h
  | .dict kvs =>
    by_cases h1 : k = "text"
    · exact ⟨fun c => formatSafely c fmtText, by simp [formatterFor, h1]⟩
    · by_cases h2 : k = "carousel"
      · exact ⟨fun c => formatSafely c fmtCarousel, by simp [formatterFor, h1, h2]⟩
      · by_cases h3 : k = "poll"
        · exact ⟨fun c => formatSafely c fmtPoll, by simp [formatterFor, h1, h2, h3]⟩
        · by_cases h4 : k = "newsletter"
          · exact ⟨fun c => formatSafely c fmtNewsletter,
              by simp [formatterFor, h1, h2, h3, h4]⟩
          · by_cases h5 : k = "video_script"
            · exact ⟨fun c => formatSafely c fmtVideoScript,
                by simp [formatterFor, h1, h2, h3, h4, h5]⟩
            · by_cases h6 : k = "document"
              · exact ⟨fun c => formatSafely c fmtDocument,
                  by simp [formatterFor, h1, h2, h3, h4, h5, h6]⟩
              · exfalso
                simp only [validateContent] at h
                by_cases hemp : kvs.isEmpty
                · rw [if_pos hemp] at h
                  exact absurd h (by simp)
                · rw [if_neg hemp] at h
                  by_cases hmeta : hasKey kvs "metadata"
                  · rw [if_neg (by simp [hmeta])] at h
                    rw [show validatorFor k = Option.none from by
                      simp [validatorFor, h1, h2, h3, h4, h5, h6]] at h
                    simp at h
                  · rw [if_pos (by simp [Bool.not_eq_true] at hmeta ⊢; exact hmeta)] at h
                    exact absurd h (by simp)

/-- `_save_formatted` with a registered formatter and no injected
failures: renders and stages the text file. -/
theorem saveFormattedStage_nil (content : PyVal) (contentType base : String)
    (f : PyVal → String) (st : PState) (h : st.adv = [])
    (hf : formatterFor contentType = some f) :
    saveFormattedStage content contentType base st =
      (.ok (base ++ formattedExt contentType),
        { st with
            temp :=
              upsertFile st.temp (base ++ formattedExt contentType)
                (.textF (f content)) }) := by
  unfold saveFormattedStage
  rw [hf]
  simp only [mkdirOp_nil st h,
    retryFS_first_ok _ _ _ _
      (writeTempOp_nil (base ++ formattedExt contentType) (.textF (f content)) st h)]

/-- `_save_all_formats` with a registered formatter and no injected
failures: stages the three artifacts in order. -/
theorem saveAllFormats_nil (content : PyVal) (contentType base : String)
    (f : PyVal → String) (st : PState) (h : st.adv = [])
    (hf : formatterFor contentType = some f) :
    saveAllFormats content contentType base st =
      (.ok [("json", base ++ ".json"),
            ("formatted", base ++ formattedExt contentType),
            ("metadata", base ++ "_meta.yaml")],
        { st with
            temp :=
              upsertFile
                (upsertFile
                  (upsertFile st.temp (base ++ ".json") (.jsonF content))
                  (base ++ formattedExt contentType) (.textF (f content)))
                (base ++ "_meta.yaml") (.yamlF (metadataOf content)) }) := by
  unfold saveAllFormats
  simp only [retryFS_first_ok _ _ _ _
    (writeTempOp_nil (base ++ ".json") (.jsonF content) st h)]
  simp only [saveFormattedStage_nil content contentType base f
    { st with temp := upsertFile st.temp (base ++ ".json") (.jsonF content) } h hf]
  simp only [retryFS_first_ok _ _ _ _
    (writeTempOp_nil (base ++ "_meta.yaml") (.yamlF (metadataOf content))
      { st with temp := upsertFile (upsertFile st.temp (base ++ ".json") (.jsonF content)) (base ++ formattedExt contentType) (.textF (f content)) } h)]

/-- `mkdir` leaves the file listings and the move counter untouched. -/
theorem mkdirOp_preserves (st : PState) :
    ((mkdirOp st).2).finalFiles = st.finalFiles ∧
    ((mkdirOp st).2).temp = st.temp ∧
    ((mkdirOp st).2).moveAttempts = st.moveAttempts := by
  unfold mkdirOp nextOutcome
  cases h : st.adv with
  | nil => exact ⟨rfl, rfl, rfl⟩
  | cons o r => cases o <;> exact ⟨rfl, rfl, rfl⟩

/-- A backup copy touches only the backup mirror and the adversary
stream. -/
theorem copyToBackupOp_preserves (name : String) (st : PState) :
    ((copyToBackupOp name st).2).finalFiles = st.finalFiles ∧
    ((copyToBackupOp name st).2).temp = st.temp ∧
    ((copyToBackupOp name st).2).moveAttempts = st.moveAttempts := by
  unfold copyToBackupOp nextOutcome
  cases hl : lookupFile st.finalFiles name with
  | none => exact ⟨rfl, rfl, rfl⟩
  | some d =>
    cases h : st.adv with
    | nil => exact ⟨rfl, rfl, rfl⟩
    | cons o r => cases o <;> exact ⟨rfl, rfl, rfl⟩

/-- `_create_backup` touches only the backup mirror and the adversary
stream: the scratch and final listings and the move counter are
untouched, and it never raises. -/
theorem createBackup_preserves (l : List (String × String)) :
    ∀ st : PState,
      (createBackup l st).finalFiles = st.finalFiles ∧
      (createBackup l st).temp = st.temp ∧
      (createBackup l st).moveAttempts = st.moveAttempts := by
  induction l with
  | nil => intro st; exact ⟨rfl, rfl, rfl⟩
  | cons p rest ih =>
    intro st
    obtain ⟨tag, name⟩ := p
    have hm := mkdirOp_preserves st
    unfold createBackup
    split
    · rename_i heq
      rw [heq] at hm
      exact hm
    · rename_i u st1 heq
      rw [heq] at hm
      have hc := copyToBackupOp_preserves name st1
      split
      · rename_i heq2
        rw [heq2] at hc
        exact ⟨hc.1.trans hm.1, hc.2.1.trans hm.2.1, hc.2.2.trans hm.2.2⟩
      · rename_i u2 st2 heq2
        rw [heq2] at hc
        have hr := ih st2
        exact ⟨hr.1.trans (hc.1.trans hm.1), hr.2.1.trans (hc.2.1.trans hm.2.1),
          hr.2.2.trans (hc.2.2.trans hm.2.2)⟩

/-- `_create_backup` never changes the final directory. -/
theorem createBackup_finalFiles (l : List (String × String)) (st : PState) :
    (createBackup l st).finalFiles = st.finalFiles :=
  (createBackup_preserves l st).1

/-- Verification succeeds on the three staged artifacts when the staged
JSON re-reads to the expected checksum. -/
theorem verifyFiles_three (st : PState) (cks : String) (n1 n2 n3 : String)
    (d2 d3 : FileData) (v : PyVal)
    (htemp : st.temp = [(n1, .jsonF v), (n2, d2), (n3, d3)])
    (hcks : computeChecksum v = cks)
    (h12 : ¬ n1 = n2) (h13 : ¬ n1 = n3) (h23 : ¬ n2 = n3) :
    verifyFiles st cks [("json", n1), ("formatted", n2), ("metadata", n3)] = .ok () := by
  have htagF : ¬ ("formatted" = "json") := by decide
  have htagM : ¬ ("metadata" = "json") := by decide
  simp [verifyFiles, htemp, lookupFile, h12, h13, h23, htagF, htagM,
    jsonLoadFile, hcks]

/-- Relocating the three staged artifacts with no injected failures:
all moves succeed, the scratch files disappear, and the final directory
gains the three artifacts. -/
theorem moveToFinal_three_nil (n1 n2 n3 t1 t2 t3 : String) (d1 d2 d3 : FileData)
    (st : PState) (h : st.adv = [])
    (htemp : st.temp = [(n1, d1), (n2, d2), (n3, d3)])
    (h12 : ¬ n1 = n2) (h13 : ¬ n1 = n3) (h23 : ¬ n2 = n3) :
    (moveToFinal [(t1, n1), (t2, n2), (t3, n3)] st).1 =
      .ok [(t1, n1), (t2, n2), (t3, n3)] ∧
    (moveToFinal [(t1, n1), (t2, n2), (t3, n3)] st).2.finalFiles =
      upsertFile (upsertFile (upsertFile st.finalFiles n1 d1) n2 d2) n3 d3 := by
  have hl1 : lookupFile st.temp n1 = some d1 := by
    rw [htemp]
    simp [lookupFile]
  constructor <;>
    simp [moveToFinal, retryFS, moveOp, nextOutcome, htemp, h, removeFile, lookupFile,
      Ne.symm h12, Ne.symm h13, Ne.symm h23]

/-- The happy path of `save_content` body: with a valid record whose
`metadata` is a mapping, a size within the limit, and no injected
filesystem failures, the pipeline returns the three final tag-to-path
entries and the final directory holds the staged record under the JSON
name. -/
theorem runSaveInner_ok_nil (kvs m : List (String × PyVal))
    (contentType baseDir date ts : String) (backupCfg : Bool) (st : PState)
    (f : PyVal → String)
    (hval : validateContent (.dict kvs) contentType = .ok ())
    (hsize : ¬ (dumpsVal (.dict kvs)).length > maxContentSize)
    (hmeta : lookupAssoc kvs "metadata" = some (.dict m))
    (hf : formatterFor contentType = some f)
    (hadv : st.adv = []) :
    (runSaveInner (.dict kvs) contentType baseDir date ts backupCfg st).1 =
      .ok [("json", finalPathStr baseDir date contentType
              (sanitizeFilename (dictGetD m "topic" (.str "untitled")) ++ "_" ++ ts ++ ".json")),
           ("formatted", finalPathStr baseDir date contentType
              (sanitizeFilename (dictGetD m "topic" (.str "untitled")) ++ "_" ++ ts ++
                formattedExt contentType)),
           ("metadata", finalPathStr baseDir date contentType
              (sanitizeFilename (dictGetD m "topic" (.str "untitled")) ++ "_" ++ ts ++
                "_meta.yaml"))] ∧
    lookupFile (runSaveInner (.dict kvs) contentType baseDir date ts backupCfg st).2.finalFiles
      (sanitizeFilename (dictGetD m "topic" (.str "untitled")) ++ "_" ++ ts ++ ".json") =
      some (.jsonF (.dict kvs)) := by
  have hext : formattedExt contentType = ".md" ∨ formattedExt contentType = ".txt" := by
    unfold formattedExt
    split
    · exact Or.inl rfl
    · exact Or.inr rfl
  have hne12 : ¬ (sanitizeFilename (dictGetD m "topic" (.str "untitled")) ++ "_" ++ ts ++ ".json" =
      sanitizeFilename (dictGetD m "topic" (.str "untitled")) ++ "_" ++ ts ++ formattedExt contentType) := by
    rcases hext with hx | hx <;> rw [hx] <;>
      exact string_append_right_ne _ _ _ (by decide)
  have hne13 : ¬ (sanitizeFilename (dictGetD m "topic" (.str "untitled")) ++ "_" ++ ts ++ ".json" =
      sanitizeFilename (dictGetD m "topic" (.str "untitled")) ++ "_" ++ ts ++ "_meta.yaml") :=
    string_append_right_ne _ _ _ (by decide)
  have hne23 : ¬ (sanitizeFilename (dictGetD m "topic" (.str "untitled")) ++ "_" ++ ts ++ formattedExt contentType =
      sanitizeFilename (dictGetD m "topic" (.str "untitled")) ++ "_" ++ ts ++ "_meta.yaml") := by
    rcases hext with hx | hx <;> rw [hx] <;>
      exact string_append_right_ne _ _ _ (by decide)
  have htagF : ¬ ("formatted" = "json") := by decide
  have htagM : ¬ ("metadata" = "json") := by decide
  have htopic : topicOf (.dict kvs) = .ok (dictGetD m "topic" (.str "untitled")) := by
    simp [topicOf, hmeta]
  constructor <;>
    simp [runSaveInner, hsize, hval, htopic, throttle, mkdirOp, nextOutcome, hadv,
      saveAllFormats, saveFormattedStage, hf, retryFS, writeTempOp,
      verifyFiles, jsonLoadFile, moveToFinal, moveOp, removeFile,
      lookupFile, upsertFile, createBackup_finalFiles,
      apply_ite PState.finalFiles, lookupFile_upsert_self, lookupFile_upsert_ne,
      hne12, hne13, hne23, Ne.symm hne12, Ne.symm hne13, Ne.symm hne23,
      htagF, htagM]

/-- Decidable equality for `Except` results, for evaluating concrete
pipeline runs. -/
instance {E A : Type} [DecidableEq E] [DecidableEq A] : DecidableEq (Except E A) :=
  fun x y =>
    match x, y with
    | .ok a, .ok b =>
      match decEq a b with
      | isTrue h => isTrue (h ▸ rfl)
      | isFalse h => isFalse (fun hh => Except.noConfusion hh (fun he => h he))
    | .error a, .error b =>
      match decEq a b with
      | isTrue h => isTrue (h ▸ rfl)
      | isFalse h => isFalse (fun hh => Except.noConfusion hh (fun he => h he))
    | .ok _, .error _ => isFalse (fun h => Except.noConfusion h)
    | .error _, .ok _ => isFalse (fun h => Except.noConfusion h)

/-- C2 (counterexample): a record that `validate_content` accepts and that
is within the size limit, but whose `metadata` value is not a mapping
(`1`): `save_content` does not succeed — the topic extraction
`content.get('metadata', {}).get('topic', 'untitled')` raises
`AttributeError`, wrapped into `OutputError`. -/
theorem c2_roundtrip_counterexample :
    validateContent (.dict [("content", .str "hi"), ("metadata", .int 1)]) "text" = .ok () ∧
    ¬ (dumpsVal (.dict [("content", .str "hi"), ("metadata", .int 1)])).length >
      maxContentSize ∧
    (runSave (.dict [("content", .str "hi"), ("metadata", .int 1)]) "text" "output"
      "2026-01-01" "20260101_000000" false ⟨[], [], [], [], 0, 0, 0⟩).1 =
      .error (.output "Content save failed: object has no attribute get") := by
  refine ⟨rfl, by decide, by decide⟩

/-- Shared core: a valid record with mapping metadata, within the size
limit and with no injected failures, saves successfully with the three
final paths, and the final JSON re-reads to the staged record. -/
theorem runSave_ok_of_valid (kvs m : List (String × PyVal))
    (contentType baseDir date ts : String) (backupCfg : Bool) (st : PState)
    (hval : validateContent (.dict kvs) contentType = .ok ())
    (hsize : (dumpsVal (.dict kvs)).length ≤ maxContentSize)
    (hmeta : lookupAssoc kvs "metadata" = some (.dict m))
    (hadv : st.adv = []) :
    (runSave (.dict kvs) contentType baseDir date ts backupCfg st).1 =
      .ok [("json", finalPathStr baseDir date contentType
              (sanitizeFilename (dictGetD m "topic" (.str "untitled")) ++ "_" ++ ts ++ ".json")),
           ("formatted", finalPathStr baseDir date contentType
              (sanitizeFilename (dictGetD m "topic" (.str "untitled")) ++ "_" ++ ts ++
                formattedExt contentType)),
           ("metadata", finalPathStr baseDir date contentType
              (sanitizeFilename (dictGetD m "topic" (.str "untitled")) ++ "_" ++ ts ++
                "_meta.yaml"))] ∧
    ∃ v, lookupFile
        (runSave (.dict kvs) contentType baseDir date ts backupCfg st).2.finalFiles
        (sanitizeFilename (dictGetD m "topic" (.str "untitled")) ++ "_" ++ ts ++ ".json") =
        some (.jsonF v) ∧
      computeChecksum v = computeChecksum (.dict kvs) := by
  obtain ⟨f, hf⟩ := formatterFor_isSome_of_valid _ _ hval
  have hs : ¬ (dumpsVal (.dict kvs)).length > maxContentSize := by omega
  have hm := runSaveInner_ok_nil kvs m contentType baseDir date ts backupCfg st f
    hval hs hmeta hf hadv
  cases hrs : runSaveInner (.dict kvs) contentType baseDir date ts backupCfg st with
  | mk r st1 =>
    rw [hrs] at hm
    obtain ⟨hm1, hm2⟩ := hm
    simp only at hm1 hm2
    subst hm1
    unfold runSave
    rw [hrs]
    exact ⟨rfl, .dict kvs, hm2, rfl⟩

/-- C2 (amended): for every record valid for its kind *whose `metadata`
value is a mapping*, within the size limit and with no filesystem
failures, `save_content` succeeds, returning the three final paths; the
final JSON file re-reads to a value whose recomputed checksum equals the
checksum of the (deep copy of the) record computed before staging — the
step-7 verification equality holds and the save never aborts with
"content verification failed". -/
theorem c2_roundtrip_amended (kvs m : List (String × PyVal))
    (contentType baseDir date ts : String) (backupCfg : Bool) (st : PState)
    (hval : validateContent (.dict kvs) contentType = .ok ())
    (hsize : (dumpsVal (.dict kvs)).length ≤ maxContentSize)
    (hmeta : lookupAssoc kvs "metadata" = some (.dict m))
    (hadv : st.adv = []) :
    (runSave (.dict kvs) contentType baseDir date ts backupCfg st).1 =
      .ok [("json", finalPathStr baseDir date contentType
              (sanitizeFilename (dictGetD m "topic" (.str "untitled")) ++ "_" ++ ts ++ ".json")),
           ("formatted", finalPathStr baseDir date contentType
              (sanitizeFilename (dictGetD m "topic" (.str "untitled")) ++ "_" ++ ts ++
                formattedExt contentType)),
           ("metadata", finalPathStr baseDir date contentType
              (sanitizeFilename (dictGetD m "topic" (.str "untitled")) ++ "_" ++ ts ++
                "_meta.yaml"))] ∧
    ∃ v, lookupFile
        (runSave (.dict kvs) contentType baseDir date ts backupCfg st).2.finalFiles
        (sanitizeFilename (dictGetD m "topic" (.str "untitled")) ++ "_" ++ ts ++ ".json") =
        some (.jsonF v) ∧
      computeChecksum v = computeChecksum (.dict kvs) :=
  runSave_ok_of_valid kvs m contentType baseDir date ts backupCfg st hval hsize hmeta hadv

/-- C2 (witness): the amended round-trip at the concrete scenario record
of spec §8. -/
theorem c2_roundtrip_amended_witness :
    (runSave (.dict [("content", .str "Hello world"),
        ("metadata", .dict [("topic", .str "AI Trends")])]) "text" "output"
        "2026-01-01" "20260101_000000" false ⟨[], [], [], [], 0, 0, 0⟩).1 =
      .ok [("json", finalPathStr "output" "2026-01-01" "text"
              (sanitizeFilename (dictGetD [("topic", .str "AI Trends")] "topic" (.str "untitled")) ++
                "_" ++ "20260101_000000" ++ ".json")),
           ("formatted", finalPathStr "output" "2026-01-01" "text"
              (sanitizeFilename (dictGetD [("topic", .str "AI Trends")] "topic" (.str "untitled")) ++
                "_" ++ "20260101_000000" ++ formattedExt "text")),
           ("metadata", finalPathStr "output" "2026-01-01" "text"
              (sanitizeFilename (dictGetD [("topic", .str "AI Trends")] "topic" (.str "untitled")) ++
                "_" ++ "20260101_000000" ++ "_meta.yaml"))] ∧
    ∃ v, lookupFile
        (runSave (.dict [("content", .str "Hello world"),
          ("metadata", .dict [("topic", .str "AI Trends")])]) "text" "output"
          "2026-01-01" "20260101_000000" false ⟨[], [], [], [], 0, 0, 0⟩).2.finalFiles
        (sanitizeFilename (dictGetD [("topic", .str "AI Trends")] "topic" (.str "untitled")) ++
          "_" ++ "20260101_000000" ++ ".json") =
        some (.jsonF v) ∧
      computeChecksum v =
        computeChecksum (.dict [("content", .str "Hello world"),
          ("metadata", .dict [("topic", .str "AI Trends")])]) :=
  c2_roundtrip_amended
    [("content", .str "Hello world"), ("metadata", .dict [("topic", .str "AI Trends")])]
    [("topic", .str "AI Trends")] "text" "output" "2026-01-01" "20260101_000000" false
    ⟨[], [], [], [], 0, 0, 0⟩ rfl (by decide) rfl rfl

/-- Replace the value bound to a key (first occurrence). -/
def setKeyVal : List (String × PyVal) → String → PyVal → List (String × PyVal)
  | [], _, _ => []
  | (k0, v0) :: rest, k, v =>
    if k0 = k then (k, v) :: rest else (k0, v0) :: setKeyVal rest k v

/-- Replacing a value does not change emptiness. -/
theorem setKeyVal_isEmpty (l : List (String × PyVal)) (k : String) (v : PyVal) :
    (setKeyVal l k v).isEmpty = l.isEmpty := by
  cases l with
  | nil => rfl
  | cons p r =>
    obtain ⟨k0, v0⟩ := p
    by_cases h : k0 = k <;> simp [setKeyVal, h]

/-- Replacing one key's value does not change other keys' lookups. -/
theorem lookupAssoc_setKeyVal_ne (l : List (String × PyVal)) (k k2 : String)
    (v : PyVal) (h : k2 ≠ k) :
    lookupAssoc (setKeyVal l k v) k2 = lookupAssoc l k2 := by
  induction l with
  | nil => rfl
  | cons p r ih =>
    obtain ⟨k0, v0⟩ := p
    by_cases h0 : k0 = k
    · subst h0
      simp [setKeyVal, lookupAssoc, Ne.symm h]
    · simp only [setKeyVal, if_neg h0, lookupAssoc]
      by_cases h2 : k0 = k2
      · simp [h2]
      · simp [h2, ih]

/-- Replacing the value of a present key keeps the key present. -/
theorem lookupAssoc_setKeyVal_self (l : List (String × PyVal)) (k : String)
    (v : PyVal) (h : hasKey l k = true) :
    lookupAssoc (setKeyVal l k v) k = some v := by
  induction l with
  | nil => simp [hasKey, lookupAssoc] at h
  | cons p r ih =>
    obtain ⟨k0, v0⟩ := p
    by_cases h0 : k0 = k
    · subst h0
      simp [setKeyVal, lookupAssoc]
    · simp only [setKeyVal, if_neg h0, lookupAssoc, if_neg h0]
      apply ih
      simpa [hasKey, lookupAssoc, h0] using h

/-- `_validate_text` ignores the `metadata` value. -/
theorem validateText_setKeyVal (kvs : List (String × PyVal)) (v : PyVal) :
    validateText (setKeyVal kvs "metadata" v) = validateText kvs := by
  unfold validateText
  rw [lookupAssoc_setKeyVal_ne kvs "metadata" "content" v (by decide)]

/-- `_validate_carousel` ignores the `metadata` value. -/
theorem validateCarousel_setKeyVal (kvs : List (String × PyVal)) (v : PyVal) :
    validateCarousel (setKeyVal kvs "metadata" v) = validateCarousel kvs := by
  unfold validateCarousel
  rw [lookupAssoc_setKeyVal_ne kvs "metadata" "slides" v (by decide)]

/-- `_validate_poll` ignores the `metadata` value. -/
theorem validatePoll_setKeyVal (kvs : List (String × PyVal)) (v : PyVal) :
    validatePoll (setKeyVal kvs "metadata" v) = validatePoll kvs := by
  unfold validatePoll
  rw [lookupAssoc_setKeyVal_ne kvs "metadata" "options" v (by decide)]

/-- `_validate_newsletter` ignores the `metadata` value. -/
theorem validateNewsletter_setKeyVal (kvs : List (String × PyVal)) (v : PyVal) :
    validateNewsletter (setKeyVal kvs "metadata" v) = validateNewsletter kvs := by
  unfold validateNewsletter
  rw [lookupAssoc_setKeyVal_ne kvs "metadata" "sections" v (by decide)]

/-- `_validate_video_script` ignores the `metadata` value. -/
theorem validateVideoScript_setKeyVal (kvs : List (String × PyVal)) (v : PyVal) :
    validateVideoScript (setKeyVal kvs "metadata" v) = validateVideoScript kvs := by
  unfold validateVideoScript
  rw [lookupAssoc_setKeyVal_ne kvs "metadata" "script" v (by decide)]

/-- `_validate_document` ignores the `metadata` value. -/
theorem validateDocument_setKeyVal (kvs : List (String × PyVal)) (v : PyVal) :
    validateDocument (setKeyVal kvs "metadata" v) = validateDocument kvs := by
  unfold validateDocument
  rw [lookupAssoc_setKeyVal_ne kvs "metadata" "sections" v (by decide)]

/-- C9: `validate_content` never inspects the *value* of `metadata` —
replacing it by any value (mapping or not, with or without `topic`)
leaves the validation outcome unchanged; and when the metadata mapping
has no `topic` key, a successful save builds all three filenames with the
literal prefix `untitled_`. -/
theorem c9_metadata_not_inspected :
    (∀ (kvs : List (String × PyVal)) (kind : String) (v : PyVal),
      hasKey kvs "metadata" = true →
      validateContent (.dict (setKeyVal kvs "metadata" v)) kind =
        validateContent (.dict kvs) kind) ∧
    (∀ (kvs m : List (String × PyVal)) (kind baseDir date ts : String)
        (backupCfg : Bool) (st : PState),
      validateContent (.dict kvs) kind = .ok () →
      (dumpsVal (.dict kvs)).length ≤ maxContentSize →
      lookupAssoc kvs "metadata" = some (.dict m) →
      lookupAssoc m "topic" = Option.none →
      st.adv = [] →
      (runSave (.dict kvs) kind baseDir date ts backupCfg st).1 =
        .ok [("json", finalPathStr baseDir date kind ("untitled_" ++ ts ++ ".json")),
             ("formatted", finalPathStr baseDir date kind
               ("untitled_" ++ ts ++ formattedExt kind)),
             ("metadata", finalPathStr baseDir date kind
               ("untitled_" ++ ts ++ "_meta.yaml"))]) := by
  constructor
  · intro kvs kind v hkey
    have hself := lookupAssoc_setKeyVal_self kvs "metadata" v hkey
    have hkey2 : hasKey (setKeyVal kvs "metadata" v) "metadata" = true := by
      simp [hasKey, hself]
    by_cases hemp : kvs.isEmpty
    · simp [validateContent, setKeyVal_isEmpty, hemp]
    · by_cases h1 : kind = "text"
      · subst h1
        simp [validateContent, setKeyVal_isEmpty, hemp, hkey2, hkey, validatorFor,
          validateText_setKeyVal]
      · by_cases h2 : kind = "carousel"
        · subst h2
          simp [validateContent, setKeyVal_isEmpty, hemp, hkey2, hkey, validatorFor,
            validateCarousel_setKeyVal]
        · by_cases h3 : kind = "poll"
          · subst h3
            simp [validateContent, setKeyVal_isEmpty, hemp, hkey2, hkey, validatorFor,
              validatePoll_setKeyVal]
          · by_cases h4 : kind = "newsletter"
            · subst h4
              simp [validateContent, setKeyVal_isEmpty, hemp, hkey2, hkey, validatorFor,
                validateNewsletter_setKeyVal]
            · by_cases h5 : kind = "video_script"
              · subst h5
                simp [validateContent, setKeyVal_isEmpty, hemp, hkey2, hkey, validatorFor,
                  validateVideoScript_setKeyVal]
              · by_cases h6 : kind = "document"
                · subst h6
                  simp [validateContent, setKeyVal_isEmpty, hemp, hkey2, hkey, validatorFor,
                    validateDocument_setKeyVal]
                · simp [validateContent, setKeyVal_isEmpty, hemp, hkey2, hkey, validatorFor,
                    h1, h2, h3, h4, h5, h6]
  · intro kvs m kind baseDir date ts backupCfg st hval hsize hmeta htopic hadv
    have h2 := (runSave_ok_of_valid kvs m kind baseDir date ts backupCfg st hval hsize hmeta hadv).1
    have hun : sanitizeFilename (dictGetD m "topic" (.str "untitled")) = "untitled" := by
      rw [show dictGetD m "topic" (.str "untitled") = .str "untitled" from by
        simp [dictGetD, htopic]]
      decide
    rw [h2, hun]
    rw [show ("untitled" ++ "_" : String) = "untitled_" from rfl]

/-- C9 (witness): validation outcome unchanged when the metadata value is
replaced by a non-mapping, and concrete `untitled_`-prefixed paths when
the metadata mapping lacks `topic`. -/
theorem c9_metadata_not_inspected_witness :
    validateContent
        (.dict (setKeyVal [("metadata", .dict []), ("content", .str "x")] "metadata" (.int 5)))
        "text" =
      validateContent (.dict [("metadata", .dict []), ("content", .str "x")]) "text" ∧
    (runSave (.dict [("content", .str "x"), ("metadata", .dict [("author", .str "a")])])
        "text" "o" "2026-01-01" "TS" false ⟨[], [], [], [], 0, 0, 0⟩).1 =
      .ok [("json", finalPathStr "o" "2026-01-01" "text" ("untitled_" ++ "TS" ++ ".json")),
           ("formatted", finalPathStr "o" "2026-01-01" "text"
             ("untitled_" ++ "TS" ++ formattedExt "text")),
           ("metadata", finalPathStr "o" "2026-01-01" "text"
             ("untitled_" ++ "TS" ++ "_meta.yaml"))] := by
  constructor
  · exact c9_metadata_not_inspected.1 [("metadata", .dict []), ("content", .str "x")]
      "text" (.int 5) (by decide)
  · exact c9_metadata_not_inspected.2
      [("content", .str "x"), ("metadata", .dict [("author", .str "a")])]
      [("author", .str "a")] "text" "o" "2026-01-01" "TS" false
      ⟨[], [], [], [], 0, 0, 0⟩ rfl (by decide) rfl rfl rfl

/-- The outcome of the pipeline body does not depend on whether a backup
directory is configured: `_create_backup` runs after relocation and never
raises. -/
theorem runSaveInner_fst_backup_invariant (content : PyVal)
    (contentType baseDir date ts : String) (st : PState) :
    (runSaveInner content contentType baseDir date ts true st).1 =
      (runSaveInner content contentType baseDir date ts false st).1 := by
  simp only [runSaveInner]
  repeat' (first | rfl | split)

/-- C8: configuring a backup never changes the result of `save_content` —
`_create_backup` absorbs every failure (it returns a state, never an
exception) and touches neither the scratch nor the final listings;
concretely, a save whose backup copies all fail still returns the final
tag-to-path mapping with an empty backup mirror. -/
theorem c8_backup_never_invalidates :
    (∀ (content : PyVal) (contentType baseDir date ts : String) (st : PState),
      (runSave content contentType baseDir date ts true st).1 =
        (runSave content contentType baseDir date ts false st).1) ∧
    (∀ (l : List (String × String)) (st : PState),
      (createBackup l st).finalFiles = st.finalFiles ∧
      (createBackup l st).temp = st.temp) ∧
    ((runSave (.dict [("content", .str "Hello world"),
        ("metadata", .dict [("topic", .str "AI Trends")])]) "text" "output"
        "2026-01-01" "TS" true
        ⟨[], [], [], List.replicate 8 .ok ++ List.replicate 6 .fail, 0, 0, 0⟩).1 =
      .ok [("json", "output/2026-01-01/text/ai trends_TS.json"),
           ("formatted", "output/2026-01-01/text/ai trends_TS.txt"),
           ("metadata", "output/2026-01-01/text/ai trends_TS_meta.yaml")] ∧
     (runSave (.dict [("content", .str "Hello world"),
        ("metadata", .dict [("topic", .str "AI Trends")])]) "text" "output"
        "2026-01-01" "TS" true
        ⟨[], [], [], List.replicate 8 .ok ++ List.replicate 6 .fail, 0, 0, 0⟩).2.backupFiles =
      []) := by
  refine ⟨?_, ?_, by decide, by decide⟩
  · intro content contentType baseDir date ts st
    have h := runSaveInner_fst_backup_invariant content contentType baseDir date ts st
    unfold runSave
    cases h1 : runSaveInner content contentType baseDir date ts true st with
    | mk r1 s1 =>
      cases h2 : runSaveInner content contentType baseDir date ts false st with
      | mk r2 s2 =>
        rw [h1, h2] at h
        simp only at h
        subst h
        cases r1 <;> rfl
  · intro l st
    exact ⟨(createBackup_preserves l st).1, (createBackup_preserves l st).2.1⟩

/-- A staged write never touches the final directory or the move
counter. -/
theorem writeTempOp_preserves (name : String) (d : FileData) (st : PState) :
    ((writeTempOp name d st).2).finalFiles = st.finalFiles ∧
    ((writeTempOp name d st).2).moveAttempts = st.moveAttempts := by
  unfold writeTempOp nextOutcome
  cases h : st.adv with
  | nil => exact ⟨rfl, rfl⟩
  | cons o r => cases o <;> exact ⟨rfl, rfl⟩

/-- Retrying preserves whatever final-directory/move-counter invariant the
underlying operation preserves. -/
theorem retryFS_preserves {A : Type} (op : PState → Except PyErr A × PState)
    (hop : ∀ s, ((op s).2).finalFiles = s.finalFiles ∧
      ((op s).2).moveAttempts = s.moveAttempts) (st : PState) :
    ((retryFS op st).2).finalFiles = st.finalFiles ∧
    ((retryFS op st).2).moveAttempts = st.moveAttempts := by
  unfold retryFS
  cases h1 : op st with
  | mk r1 st1 =>
    have hp1 := hop st
    rw [h1] at hp1
    cases r1 with
    | ok a => exact hp1
    | error e1 =>
      dsimp only
      cases h2 : op st1 with
      | mk r2 st2 =>
        have hp2 := hop st1
        rw [h2] at hp2
        cases r2 with
        | ok a => exact ⟨hp2.1.trans hp1.1, hp2.2.trans hp1.2⟩
        | error e2 =>
          dsimp only
          have hp3 := hop st2
          exact ⟨hp3.1.trans (hp2.1.trans hp1.1), hp3.2.trans (hp2.2.trans hp1.2)⟩

/-- `_save_formatted` never touches the final directory or the move
counter. -/
theorem saveFormattedStage_preserves (content : PyVal) (contentType base : String)
    (st : PState) :
    ((saveFormattedStage content contentType base st).2).finalFiles = st.finalFiles ∧
    ((saveFormattedStage content contentType base st).2).moveAttempts = st.moveAttempts := by
  unfold saveFormattedStage
  cases hf : formatterFor contentType with
  | none => exact ⟨rfl, rfl⟩
  | some f =>
    cases hm : mkdirOp st with
    | mk rm st1 =>
      have hp1 := mkdirOp_preserves st
      rw [hm] at hp1
      cases rm with
      | error e => exact ⟨hp1.1, hp1.2.2⟩
      | ok u =>
        dsimp only
        cases hw : retryFS (writeTempOp (base ++ formattedExt contentType)
            (.textF (f content))) st1 with
        | mk rw2 st2 =>
          have hp2 := retryFS_preserves _
            (fun s => writeTempOp_preserves (base ++ formattedExt contentType)
              (.textF (f content)) s) st1
          rw [hw] at hp2
          cases rw2 with
          | error e => exact ⟨hp2.1.trans hp1.1, hp2.2.trans hp1.2.2⟩
          | ok u2 => exact ⟨hp2.1.trans hp1.1, hp2.2.trans hp1.2.2⟩

/-- `_save_all_formats` never touches the final directory or the move
counter. -/
theorem saveAllFormats_preserves (content : PyVal) (contentType base : String)
    (st : PState) :
    ((saveAllFormats content contentType base st).2).finalFiles = st.finalFiles ∧
    ((saveAllFormats content contentType base st).2).moveAttempts = st.moveAttempts := by
  unfold saveAllFormats
  cases h1 : retryFS (writeTempOp (base ++ ".json") (.jsonF content)) st with
  | mk r1 st1 =>
    have hp1 := retryFS_preserves _
      (fun s => writeTempOp_preserves (base ++ ".json") (.jsonF content) s) st
    rw [h1] at hp1
    cases r1 with
    | error e => exact hp1
    | ok u =>
      dsimp only
      cases h2 : saveFormattedStage content contentType base st1 with
      | mk r2 st2 =>
        have hp2 := saveFormattedStage_preserves content contentType base st1
        rw [h2] at hp2
        cases r2 with
        | error e => exact ⟨hp2.1.trans hp1.1, hp2.2.trans hp1.2⟩
        | ok fname =>
          dsimp only
          cases h3 : retryFS (writeTempOp (base ++ "_meta.yaml")
              (.yamlF (metadataOf content))) st2 with
          | mk r3 st3 =>
            have hp3 := retryFS_preserves _
              (fun s => writeTempOp_preserves (base ++ "_meta.yaml")
                (.yamlF (metadataOf content)) s) st2
            rw [h3] at hp3
            cases r3 with
            | error e =>
              exact ⟨hp3.1.trans (hp2.1.trans hp1.1), hp3.2.trans (hp2.2.trans hp1.2)⟩
            | ok u3 =>
              exact ⟨hp3.1.trans (hp2.1.trans hp1.1), hp3.2.trans (hp2.2.trans hp1.2)⟩

/-- Every `shutil.move` call bumps the ghost move counter, succeed or
fail. -/
theorem moveOp_attempts (name : String) (st : PState) :
    ((moveOp name st).2).moveAttempts = st.moveAttempts + 1 := by
  unfold moveOp nextOutcome
  cases hl : lookupFile st.temp name with
  | none => rfl
  | some d =>
    cases h : st.adv with
    | nil => rfl
    | cons o r => cases o <;> rfl

/-- A retried move makes at least one attempt. -/
theorem retryFS_moveOp_attempts (name : String) (st : PState) :
    st.moveAttempts < ((retryFS (moveOp name) st).2).moveAttempts := by
  unfold retryFS
  cases h1 : moveOp name st with
  | mk r1 st1 =>
    have hp1 := moveOp_attempts name st
    rw [h1] at hp1
    dsimp only at hp1
    cases r1 with
    | ok a => dsimp only; omega
    | error e1 =>
      dsimp only
      cases h2 : moveOp name st1 with
      | mk r2 st2 =>
        have hp2 := moveOp_attempts name st1
        rw [h2] at hp2
        dsimp only at hp2
        cases r2 with
        | ok a => dsimp only; omega
        | error e2 =>
          dsimp only
          have hp3 := moveOp_attempts name st2
          omega

/-- The move loop is monotone in the move counter, and if it made no
attempt (possible only for an empty work list) the final directory is
unchanged. -/
theorem moveToFinal_attempts (l : List (String × String)) :
    ∀ st : PState,
      st.moveAttempts ≤ ((moveToFinal l st).2).moveAttempts ∧
      (((moveToFinal l st).2).moveAttempts = st.moveAttempts →
        ((moveToFinal l st).2).finalFiles = st.finalFiles) := by
  induction l with
  | nil => intro st; exact ⟨le_refl _, fun _ => rfl⟩
  | cons p rest ih =>
    intro st
    obtain ⟨tag, name⟩ := p
    unfold moveToFinal
    cases h1 : retryFS (moveOp name) st with
    | mk r1 st1 =>
      have hb := retryFS_moveOp_attempts name st
      rw [h1] at hb
      dsimp only at hb
      cases r1 with
      | error e =>
        dsimp only
        exact ⟨by omega, fun hh => absurd hh (by omega)⟩
      | ok u =>
        dsimp only
        have hr := ih st1
        cases h2 : moveToFinal rest st1 with
        | mk r2 st2 =>
          rw [h2] at hr
          dsimp only at hr
          cases r2 with
          | error e =>
            dsimp only
            exact ⟨by omega, fun hh => absurd hh (by omega)⟩
          | ok fps =>
            dsimp only
            exact ⟨by omega, fun hh => absurd hh (by omega)⟩

/-- If the pipeline body finishes (with any outcome) having attempted no
move, the final directory is exactly as it started. -/
theorem runSaveInner_state (content : PyVal) (contentType baseDir date ts : String)
    (backupCfg : Bool) (st : PState) :
    ((runSaveInner content contentType baseDir date ts backupCfg st).2).moveAttempts = 0 →
    ((runSaveInner content contentType baseDir date ts backupCfg st).2).finalFiles =
      st.finalFiles := by
  simp only [runSaveInner]
  by_cases hsz : (dumpsVal content).length > maxContentSize
  · rw [if_pos hsz]
    intro _
    rfl
  · rw [if_neg hsz]
    cases hv : validateContent content contentType with
    | error e => intro _; rfl
    | ok u =>
      dsimp only
      cases hmk : mkdirOp (throttle { st with temp := [], moveAttempts := 0 }) with
      | mk rmk st1 =>
        have hp1 := mkdirOp_preserves (throttle { st with temp := [], moveAttempts := 0 })
        rw [hmk] at hp1
        dsimp only at hp1
        have hz1 : st1.moveAttempts = 0 := hp1.2.2
        cases rmk with
        | error e =>
          dsimp only
          intro _
          exact hp1.1
        | ok u1 =>
          dsimp only
          cases ht : topicOf content with
          | error e => intro _; exact hp1.1
          | ok topic =>
            dsimp only
            cases hsf : saveAllFormats content contentType
                (sanitizeFilename topic ++ "_" ++ ts) st1 with
            | mk rsf st2 =>
              have hp2 := saveAllFormats_preserves content contentType
                (sanitizeFilename topic ++ "_" ++ ts) st1
              rw [hsf] at hp2
              dsimp only at hp2
              have hz2 : st2.moveAttempts = 0 := hp2.2.trans hz1
              cases rsf with
              | error e =>
                dsimp only
                intro _
                exact hp2.1.trans hp1.1
              | ok staged =>
                dsimp only
                cases hvf : verifyFiles st2 (computeChecksum content) staged with
                | error e => intro _; exact hp2.1.trans hp1.1
                | ok u2 =>
                  dsimp only
                  cases hmv : moveToFinal staged st2 with
                  | mk rmv st3 =>
                    have hp3 := moveToFinal_attempts staged st2
                    rw [hmv] at hp3
                    dsimp only at hp3
                    cases rmv with
                    | error e =>
                      dsimp only
                      intro hm
                      have hfin := hp3.2 (by omega)
                      rw [hfin, hp2.1, hp1.1]
                      rfl
                    | ok moved =>
                      dsimp only
                      cases backupCfg with
                      | false =>
                        rw [if_neg (by decide)]
                        intro hm
                        have hfin := hp3.2 (by omega)
                        rw [hfin, hp2.1, hp1.1]
                        rfl
                      | true =>
                        rw [if_pos rfl]
                        intro hm
                        have hcb := createBackup_preserves moved st3
                        have hm3 : st3.moveAttempts = 0 := by
                          rw [hcb.2.2] at hm
                          exact hm
                        have hfin := hp3.2 (by omega)
                        rw [hcb.1, hfin, hp2.1, hp1.1]
                        rfl

/-- C1 (amended): if `save_content` raises having attempted no file move
— in particular on any validation, staging-write, or step-7
checksum-verification failure — then no artifact of the call is present
under the final output directory: the final listing is exactly as before
the call.  (A failure *during* relocation can leave earlier-moved
artifacts behind; see the counterexample.) -/
theorem c1_atomicity_amended (content : PyVal)
    (contentType baseDir date ts : String) (backupCfg : Bool) (st : PState)
    (herr : ∃ e, (runSave content contentType baseDir date ts backupCfg st).1 = .error e)
    (hmoves : (runSave content contentType baseDir date ts backupCfg st).2.moveAttempts = 0) :
    (runSave content contentType baseDir date ts backupCfg st).2.finalFiles =
      st.finalFiles := by
  clear herr
  have hs := runSaveInner_state content contentType baseDir date ts backupCfg st
  have h2 : (runSave content contentType baseDir date ts backupCfg st).2.finalFiles =
        (runSaveInner content contentType baseDir date ts backupCfg st).2.finalFiles ∧
      (runSave content contentType baseDir date ts backupCfg st).2.moveAttempts =
        (runSaveInner content contentType baseDir date ts backupCfg st).2.moveAttempts := by
    unfold runSave
    cases runSaveInner content contentType baseDir date ts backupCfg st with
    | mk r st1 => cases r <;> exact ⟨rfl, rfl⟩
  rw [h2.2] at hmoves
  rw [h2.1]
  exact hs hmoves

/-- C1 (witness): a corrupted staged JSON makes step-7 verification fail;
the save raises, no move was attempted, and the final directory is
untouched. -/
theorem c1_atomicity_amended_witness :
    (runSave (.dict [("content", .str "hi"), ("metadata", .dict [("topic", .str "t")])])
        "text" "o" "d" "T" false ⟨[], [], [], [.ok, .corrupt], 0, 0, 0⟩).2.finalFiles =
      ([] : List (String × FileData)) :=
  c1_atomicity_amended
    (.dict [("content", .str "hi"), ("metadata", .dict [("topic", .str "t")])])
    "text" "o" "d" "T" false ⟨[], [], [], [.ok, .corrupt], 0, 0, 0⟩
    ⟨.output "Content save failed: Content verification failed", by decide⟩
    (by decide)

/-- C1 (counterexample): the claim as stated is false — when the second
relocation fails (three failed attempts), `save_content` raises, yet the
already-moved JSON artifact of this very call survives in the final
directory. -/
theorem c1_atomicity_counterexample :
    (∃ e, (runSave (.dict [("content", .str "Hello world"),
        ("metadata", .dict [("topic", .str "AI Trends")])]) "text" "o" "d" "T" false
        ⟨[], [], [], [.ok, .ok, .ok, .ok, .ok, .ok, .fail, .fail, .fail], 0, 0, 0⟩).1 =
      .error e) ∧
    lookupFile (runSave (.dict [("content", .str "Hello world"),
        ("metadata", .dict [("topic", .str "AI Trends")])]) "text" "o" "d" "T" false
        ⟨[], [], [], [.ok, .ok, .ok, .ok, .ok, .ok, .fail, .fail, .fail], 0, 0, 0⟩).2.finalFiles
      "ai trends_T.json" =
      some (.jsonF (.dict [("content", .str "Hello world"),
        ("metadata", .dict [("topic", .str "AI Trends")])])) := by
  refine ⟨⟨.output "Content save failed: Failed to move files to final location: move failed",
    by decide⟩, by decide⟩

end OutputManager
